import Mathlib

/-!
A shallow embedding of the flowchart-machine Python extension's core pipeline
(`flowchart/processor/processor.py`, `flowchart/processor/handlers.py`,
`flowchart/post_processing/*`) together with proofs about it.

Python dicts are modelled as insertion-ordered association lists, Python sets
as duplicate-free lists (their iteration order is irrelevant wherever the
source's behaviour does not depend on it), and the recursive statement walk is
driven by an explicit fuel parameter (the walk in the source terminates via
the nesting-depth guard, the method-subgraph cache and the finite tree, so any
sufficiently large fuel reproduces it; concrete theorems use concrete fuel).
Strings are processed over their character lists so that every definition
evaluates inside the kernel.
-/

set_option maxHeartbeats 4000000

set_option maxRecDepth 16384

/-! ## Character-list string helpers -/

def lbrace : Char := Char.ofNat 123

def rbrace : Char := Char.ofNat 125

def isPyWordChar (c : Char) : Bool := c.isAlphanum || c == '_'

def isPySpace (c : Char) : Bool := c == ' ' || c == '\t' || c == '\n' || c == '\r'

def dropWsL : List Char → List Char
  | [] => []
  | c :: t => if isPySpace c then dropWsL t else c :: t

def takeWordL : List Char → List Char × List Char
  | [] => ([], [])
  | c :: t =>
    if isPyWordChar c then
      let r := takeWordL t
      (c :: r.1, r.2)
    else ([], c :: t)

/-- Substring containment with Python `in` semantics (empty needle matches). -/
def subInL (needle : List Char) : List Char → Bool
  | [] => needle.isEmpty
  | c :: t => needle.isPrefixOf (c :: t) || subInL needle t

def strContains (hay needle : String) : Bool := subInL needle.data hay.data

/-- Left-to-right non-overlapping replacement, Python `str.replace` (the
source never replaces an empty pattern, which the guard leaves unchanged). -/
def replaceAuxL : Nat → List Char → List Char → List Char → List Char
  | 0, _, _, hay => hay
  | _ + 1, _, _, [] => []
  | fuel + 1, src, dst, c :: t =>
    if src ≠ [] ∧ src.isPrefixOf (c :: t) then
      dst ++ replaceAuxL fuel src dst ((c :: t).drop src.length)
    else c :: replaceAuxL fuel src dst t

def strReplace (s pat dst : String) : String :=
  String.mk (replaceAuxL s.data.length pat.data dst.data s.data)

def strTakeL : Nat → List Char → List Char
  | 0, _ => []
  | _, [] => []
  | n + 1, c :: t => c :: strTakeL n t

def strTake (s : String) (n : Nat) : String := String.mk (strTakeL n s.data)

def strDropChars (s : String) (n : Nat) : String := String.mk (s.data.drop n)

def strLenChars (s : String) : Nat := s.data.length

def strStartsWith (s pre : String) : Bool := pre.data.isPrefixOf s.data

def strEndsWith (s suf : String) : Bool := suf.data.isSuffixOf s.data

def splitOnAuxL (sep : Char) : List Char → List Char → List String
  | acc, [] => [String.mk acc.reverse]
  | acc, c :: t =>
    if c == sep then String.mk acc.reverse :: splitOnAuxL sep [] t
    else splitOnAuxL sep (c :: acc) t

/-- Split on a single-character separator (Python `str.split(sep)` for the
one-character separators used by the source). -/
def strSplitOnChar (s : String) (sep : Char) : List String := splitOnAuxL sep [] s.data

def strJoin (sep : String) : List String → String
  | [] => ""
  | [x] => x
  | x :: y :: t => x ++ sep ++ strJoin sep (y :: t)

def strLower (s : String) : String := String.mk (s.data.map Char.toLower)

def trimWsL (l : List Char) : List Char :=
  (dropWsL ((dropWsL l.reverse).reverse).reverse).reverse

def strStrip (s : String) : String := String.mk (dropWsL (dropWsL s.data.reverse).reverse)

/-- Code-point comparison of strings, Python `<=` on `str`. -/
def charListLe : List Char → List Char → Bool
  | [], _ => true
  | _ :: _, [] => false
  | a :: as', b :: bs =>
    if a.val < b.val then true
    else if b.val < a.val then false
    else charListLe as' bs

def strLe (a b : String) : Bool := charListLe a.data b.data

def insertSorted (le : α → α → Bool) (x : α) : List α → List α
  | [] => [x]
  | y :: t => if le x y then x :: y :: t else y :: insertSorted le x t

/-- Insertion sort, standing in for Python `sorted` (the sorted collections in
the source are duplicate-free, so stability is immaterial). -/
def sortBy (le : α → α → Bool) : List α → List α
  | [] => []
  | x :: t => insertSorted le x (sortBy le t)

/-! ## Python dicts as insertion-ordered association lists -/

def dget (d : List (String × α)) (k : String) : Option α :=
  match d with
  | [] => none
  | (k', v) :: t => if k' == k then some v else dget t k

def dcontains (d : List (String × α)) (k : String) : Bool :=
  match d with
  | [] => false
  | (k', _) :: t => k' == k || dcontains t k

/-- Python dict assignment: update in place keeps the key's position, a new
key is appended. -/
def dinsert (d : List (String × α)) (k : String) (v : α) : List (String × α) :=
  if dcontains d k then
    d.map (fun e => if e.1 == k then (k, v) else e)
  else d ++ [(k, v)]

def derase (d : List (String × α)) (k : String) : List (String × α) :=
  d.filter (fun e => !(e.1 == k))

def dkeys (d : List (String × α)) : List String := d.map (fun e => e.1)

def dvalues (d : List (String × α)) : List α := d.map (fun e => e.2)

/-- Membership-style list-set insertion (Python `set.add`). -/
def listSetAdd (l : List String) (x : String) : List String :=
  if l.contains x then l else l ++ [x]

/-! ## `FlowchartConfig` (processor/config.py) -/

def MAX_NODES : Nat := 100

def MAX_NESTING_DEPTH : Nat := 6

def MAX_SUBGRAPH_NODES : Nat := 25

def MAX_TEXT_LENGTH : Nat := 80

def CONDITION_TRUNCATE : Nat := 30

def EXIT_FUNCTIONS : List String := ["sys.exit", "os._exit", "exit", "quit"]

def SHAPE_start : String × String := ("[", "]")

def SHAPE_end : String × String := ("[", "]")

def SHAPE_condition : String × String := ("\x7b\"", "\"\x7d")

def SHAPE_loop : String × String := ("\x7b\x7b\"", "\"\x7d\x7d")

def SHAPE_merge : String × String := ("\x7b\x7b", "\x7d\x7d")

def SHAPE_print : String × String := ("[\"", "\"]")

def SHAPE_function_call : String × String := ("[[\"", "\"]]")

def SHAPE_import : String × String := ("[/\"", "\"\\]")

def SHAPE_exit : String × String := ("[/\"", "\"\\]")

def SHAPE_exception : String × String := ("[[\"", "\"]]")

def SHAPE_default : String × String := ("[\"", "\"]")

/-! ## The statement/expression subset of the input syntax tree -/

inductive PyExpr where
  | name (id : String)
  | strLit (s : String)
  | attr (value : PyExpr) (attrName : String)
  | call (func : PyExpr) (args : List PyExpr)
  | other (txt : String)
  deriving Repr

mutual
inductive Stmt where
  | exprStmt (lineno : Nat) (value : PyExpr)
  | ifStmt (lineno : Nat) (testTxt : String) (body orelse : List Stmt)
  | assign (lineno : Nat) (targets : List PyExpr) (value : PyExpr)
  | augAssign (lineno : Nat) (target : PyExpr) (op : String) (value : PyExpr)
  | passStmt (lineno : Nat)
  | functionDef (fd : FuncDef)
  | classDef (lineno : Nat) (name : String) (body : List Stmt)
  deriving Repr

inductive FuncDef where
  | mk (lineno : Nat) (name : String) (args : List String) (body : List Stmt)
  deriving Repr
end

def FuncDef.lineno : FuncDef → Nat
  | .mk l _ _ _ => l

def FuncDef.name : FuncDef → String
  | .mk _ n _ _ => n

def FuncDef.args : FuncDef → List String
  | .mk _ _ a _ => a

def FuncDef.body : FuncDef → List Stmt
  | .mk _ _ _ b => b

def Stmt.lineno : Stmt → Nat
  | .exprStmt l _ => l
  | .ifStmt l _ _ _ => l
  | .assign l _ _ => l
  | .augAssign l _ _ _ => l
  | .passStmt l => l
  | .functionDef fd => fd.lineno
  | .classDef l _ _ => l

/-- Class entry of `class_defs`: the stored AST node's body plus the
`methods` map. -/
structure ClassInfo where
  body : List Stmt
  methods : List (String × FuncDef)
  deriving Repr

/-- `ast.unparse` for the expression subset, driven by a structural fuel so
that it evaluates in the kernel (any fuel at least the expression depth is
faithful; `unparseE` fixes a bound far above any expression in this
development). -/
def unparseGo : Nat → PyExpr → String
  | _, .name id => id
  | _, .strLit s => "\x27" ++ s ++ "\x27"
  | fuel + 1, .attr v a => unparseGo fuel v ++ "." ++ a
  | fuel + 1, .call f args => unparseGo fuel f ++ "(" ++ strJoin ", " (args.map (unparseGo fuel)) ++ ")"
  | _, .other t => t
  | 0, .attr _ a => "." ++ a
  | 0, .call _ _ => ""

def unparseE (e : PyExpr) : String := unparseGo 1000 e

/-- `ast.unparse` for the statement subset. -/
def unparseS : Stmt → String
  | .exprStmt _ v => unparseE v
  | .ifStmt _ t _ _ => "if " ++ t ++ ":"
  | .assign _ targets v => strJoin " = " (targets.map unparseE) ++ " = " ++ unparseE v
  | .augAssign _ t op v => unparseE t ++ " " ++ op ++ "= " ++ unparseE v
  | .passStmt _ => "pass"
  | .functionDef fd => "def " ++ fd.name ++ "(...)"
  | .classDef _ n _ => "class " ++ n ++ ":"

/-! ## Processor state (`FlowchartProcessor.__init__`) -/

structure ContextInfo where
  entry_name : Option String := none
  entry_type : Option String := none
  deriving Repr, DecidableEq

structure Proc where
  nodes : List (String × String) := []
  connections : List String := []
  node_scopes : List (String × Option String) := []
  scope_children : List (String × List String) := []
  node_counter : Nat := 0
  loop_stack : List (String × String) := []
  call_stack : List String := []
  end_id : Option String := none
  last_added_lineno : Option Nat := none
  next_node_label : Option String := none
  function_defs : List (String × FuncDef) := []
  class_defs : List (String × ClassInfo) := []
  variable_types : List (String × String) := []
  parameter_types : List (String × List (String × String)) := []
  attribute_types : List (String × List (String × String)) := []
  recursive_calls : List (String × List String) := []
  function_start_nodes : List (String × String) := []
  current_nesting_depth : Nat := 0
  method_exit_nodes : List (String × List String) := []
  method_subgraphs : List (String × String) := []
  method_calling_nodes : List (String × String) := []
  method_last_nodes : List (String × String) := []
  method_defs : List (String × FuncDef) := []
  breakpoint_lines : List Nat := []
  context : Option ContextInfo := none
  view_mode : String := "advanced"
  show_prints : Bool := true
  show_functions : Bool := true
  show_variables : Bool := true
  show_ifs : Bool := true
  show_classes : Bool := true
  merge_common_nodes : Bool := true
  sequential_flow : Bool := false
  deriving Repr

/-- A fresh processor with the default display configuration. -/
def procInit : Proc := {}

/-! ## Text helpers (`FlowchartProcessor._get_node_text` and friends) -/

def pyQuoteSwap (text : String) : String :=
  if strContains text "\x27" && !(strContains text "\"") then strReplace text "\x27" "\"" else text

/-- `_simplify_data_structure`: it rewrites container-literal assignments only;
container literals are not representable in this AST subset, and on every
other input the source returns the text unchanged. -/
def simplify_data_structure (text : String) (_st : Stmt) : String := text

/-- `_get_node_text` on a statement: unparse, quote normalisation, data
structure simplification, the print-backtick rule, 80-character cap. -/
def get_node_text (st : Stmt) : String :=
  let text := pyQuoteSwap (unparseS st)
  let text := simplify_data_structure text st
  let text :=
    match st with
    | .exprStmt _ (.call (.name "print") _) => strReplace (strReplace text "\"" "`") "\x27" "`"
    | _ => text
  if MAX_TEXT_LENGTH ≤ strLenChars text then strTake text (MAX_TEXT_LENGTH - 3) ++ "..." else text

/-- `_get_node_text` on a sub-expression (if-test, aug-assign operands). -/
def get_node_text_expr (e : PyExpr) : String :=
  let text := pyQuoteSwap (unparseE e)
  if MAX_TEXT_LENGTH ≤ strLenChars text then strTake text (MAX_TEXT_LENGTH - 3) ++ "..." else text

/-- `_get_node_text` on an if-statement's test, carried as its unparse text. -/
def get_node_text_test (txt : String) : String :=
  let text := pyQuoteSwap txt
  if MAX_TEXT_LENGTH ≤ strLenChars text then strTake text (MAX_TEXT_LENGTH - 3) ++ "..." else text

/-! ## Node and connection primitives (processor.py) -/

def should_highlight_breakpoint (p : Proc) (lineno? : Option Nat) : Bool :=
  match lineno? with
  | some l => p.breakpoint_lines.contains l
  | none => false

def generate_id (p : Proc) (pfx : String) : String × Proc :=
  let n := p.node_counter + 1
  (pfx ++ toString n, { p with node_counter := n })

def add_node (p : Proc) (node_id text : String) (shape : String × String) (scope : Option String) : Bool × Proc :=
  if MAX_NODES ≤ p.nodes.length then (false, p)
  else
    let text :=
      if should_highlight_breakpoint p p.last_added_lineno then
        (if text == " " then "" else "🔴 " ++ text)
      else text
    let sanitized := strReplace (strReplace (strReplace text "<" "&lt") ">" "&gt") "\"" "\x27"
    (true, { p with nodes := dinsert p.nodes node_id (node_id ++ shape.1 ++ sanitized ++ shape.2),
                    node_scopes := dinsert p.node_scopes node_id scope })

/-- `_add_connection`; the `hasattr(from_id, 'lineno')` fallback only fires
when a handler leaks an AST node instead of an id, which this typed embedding
rules out. -/
def add_connection (p : Proc) (from_id to_id : String) (label : String) (bidirectional : Bool) : Proc :=
  let lblState :=
    if label == "" then
      match p.next_node_label with
      | some l => if l == "" then (label, p.next_node_label) else (l, (none : Option String))
      | none => (label, p.next_node_label)
    else (label, p.next_node_label)
  let label := lblState.1
  let bidirectional := if p.sequential_flow then false else bidirectional
  let conn :=
    if bidirectional then
      if label == "" then "    " ++ from_id ++ " <--> " ++ to_id
      else "    " ++ from_id ++ " <-->|" ++ label ++ "| " ++ to_id
    else
      if label == "" then "    " ++ from_id ++ " --> " ++ to_id
      else "    " ++ from_id ++ " -->|" ++ label ++ "| " ++ to_id
  { p with connections := p.connections ++ [conn], next_node_label := lblState.2 }

def handle_max_nodes_exceeded (p : Proc) (current_id : String) : Proc :=
  match p.end_id with
  | some e =>
    if current_id == "" || e == "" then p
    else add_connection p current_id e ("Max node limit " ++ toString MAX_NODES ++ " exceeded") false
  | none => p

/-! ## Consolidation (handlers.py, NodeHandler) -/

def has_function_call (node_def : String) : Bool :=
  strContains node_def "(" && strContains node_def ")"

def is_simple_assignment (node_def : String) : Bool :=
  strContains node_def "=" && !(has_function_call node_def)

def AUG_OPS : List String :=
  ["+=", "-=", "*=", "/=", "%=", "**=", "//=", "&=", "|=", "^=", "<<=", ">>="]

def should_consolidate_with_previous (p : Proc) (prev_id : String) (scope : String) : Bool :=
  if !p.merge_common_nodes then false
  else if prev_id == "" || !(dcontains p.nodes prev_id) then false
  else
    let prev_def := (dget p.nodes prev_id).getD ""
    let prev_scope := (dget p.node_scopes prev_id).getD none
    if prev_scope ≠ some scope then false
    else if ["if", "for", "while", "Call:", "return"].any (fun k => strContains prev_def k) then false
    else if strContains prev_def "print(" then true
    else if is_simple_assignment prev_def then true
    else if strContains prev_def "=" && AUG_OPS.any (fun o => strContains prev_def o) then true
    else false

def extract_text_from_node (node_def : String) : String :=
  let cs := node_def.data
  match cs.findIdx? (fun c => c == '['), cs.reverse.findIdx? (fun c => c == ']') with
  | some i, some jr =>
    let j := cs.length - 1 - jr
    let text := String.mk ((cs.drop (i + 1)).take (j - (i + 1)))
    let text :=
      if strStartsWith text "\"" && strEndsWith text "\"" then
        String.mk ((text.data.drop 1).take (text.data.length - 2))
      else if strStartsWith text "\x27" && strEndsWith text "\x27" then
        String.mk ((text.data.drop 1).take (text.data.length - 2))
      else text
    strReplace (strReplace text "\"" "`") "\x27" "`"
  | _, _ => ""

def consolidate_with_previous (p : Proc) (st : Stmt) (prev_id : String) : Proc :=
  let prev_text := (dget p.nodes prev_id).getD ""
  let prev_content := extract_text_from_node prev_text
  let current_text := get_node_text st
  let consolidated := prev_content ++ "\\n" ++ current_text
  { p with nodes := dinsert p.nodes prev_id (prev_id ++ "[\"" ++ consolidated ++ "\"]") }

/-! ## Type resolution (AssignHandler._resolve_object_type) -/

def resolve_object_type (p : Proc) (obj : PyExpr) (scope : String) : Option String :=
  match obj with
  | .name v =>
    match dget p.variable_types v with
    | some t => some t
    | none => if dcontains p.class_defs v then some v else none
  | .call (.name cn) _ => if dcontains p.class_defs cn then some cn else none
  | .attr (.name "self") attrName =>
    let cur :=
      match dget p.attribute_types scope with
      | some m => dget m attrName
      | none => none
    match cur with
    | some t => some t
    | none =>
      if scope ≠ "" && strStartsWith scope "class_" then
        let parts := strSplitOnChar scope '_'
        if 3 ≤ parts.length then
          let cn := (parts.get? 1).getD ""
          let init_scope := "class_" ++ cn ++ "___init__"
          let fromInit :=
            match dget p.attribute_types init_scope with
            | some m => dget m attrName
            | none => none
          match fromInit with
          | some t => some t
          | none =>
            (p.attribute_types.find? (fun ms =>
              strStartsWith ms.1 ("class_" ++ cn ++ "_") && dcontains ms.2 attrName)).map
              (fun ms => (dget ms.2 attrName).getD "")
        else none
      else none
  | _ => none

/-! ## Class property lookup (MethodHandler._is_class_property) -/

def walkAssignsGo : Nat → Stmt → List Stmt
  | 0, _ => []
  | fuel + 1, st =>
    let nested :=
      match st with
      | .ifStmt _ _ b o => (b ++ o).foldr (fun s acc => walkAssignsGo fuel s ++ acc) []
      | .functionDef fd => fd.body.foldr (fun s acc => walkAssignsGo fuel s ++ acc) []
      | .classDef _ _ b => b.foldr (fun s acc => walkAssignsGo fuel s ++ acc) []
      | _ => []
    match st with
    | .assign l t v => .assign l t v :: nested
    | _ => nested

/-- All `ast.Assign` descendants in `ast.walk` order restricted to this AST
subset (fuel far above any nesting depth in this development). -/
def walkAssigns (st : Stmt) : List Stmt := walkAssignsGo 1000 st

def is_class_property (p : Proc) (class_name property_name : String) : Bool :=
  match dget p.class_defs class_name with
  | none => false
  | some ci =>
    let fromInit := ci.body.any fun item =>
      match item with
      | .functionDef fd =>
        fd.name == "__init__" &&
          (walkAssigns (.functionDef fd)).any fun st =>
            match st with
            | .assign _ targets _ => targets.any fun t =>
                match t with
                | .attr _ a => a == property_name
                | _ => false
            | _ => false
      | _ => false
    fromInit ||
      ci.body.any fun item =>
        match item with
        | .assign _ targets _ => targets.any fun t =>
            match t with
            | .name n => n == property_name
            | _ => false
        | _ => false

/-! ## Node filtering (processor.py) -/

def is_docstring_node (st : Stmt) (idx : Nat) : Bool :=
  idx == 0 &&
    match st with
    | .exprStmt _ (.strLit _) => true
    | _ => false

/-- `_should_process_node`; the for/while/try/return filters are vacuous on
this AST subset, which has no such constructors. -/
def should_process_node (p : Proc) (st : Stmt) (idx : Nat) : Bool :=
  if is_docstring_node st idx then false
  else
    match st with
    | .functionDef _ => false
    | _ =>
      (p.show_variables ||
        !(match st with | .assign _ _ _ => true | .augAssign _ _ _ _ => true | _ => false)) &&
      (p.show_ifs || !(match st with | .ifStmt _ _ _ _ => true | _ => false)) &&
      (p.show_classes || !(match st with | .classDef _ _ _ => true | _ => false))

def filter_main_guard (st : Stmt) : Bool :=
  match st with
  | .ifStmt _ t _ _ => !(strContains (get_node_text_test t) "__name__ == \"__main__\"")
  | _ => true

/-! ## Recursion / nesting state helpers (processor.py) -/

def is_recursive_call (func_name current_scope : String) : Bool := func_name == current_scope

def get_function_start_node (p : Proc) (func_name : String) : Option String :=
  dget p.function_start_nodes func_name

def is_nesting_limit_exceeded (p : Proc) : Bool :=
  MAX_NESTING_DEPTH ≤ p.current_nesting_depth

def setdefault_add_child (p : Proc) (scope child : String) : Proc :=
  let cur := (dget p.scope_children scope).getD []
  { p with scope_children := dinsert p.scope_children scope (listSetAdd cur child) }

def record_recursive_call (p : Proc) (fname call_id : String) : Proc :=
  let cur := (dget p.recursive_calls fname).getD []
  { p with recursive_calls := dinsert p.recursive_calls fname (cur ++ [call_id]) }

/-! ## Assignment type tracking (AssignHandler) -/

def track_attribute_assignment (p : Proc) (st : Stmt) (scope : String) : Proc :=
  match st with
  | .assign _ [.attr (.name "self") attrName] v =>
    match v with
    | .name param_name =>
      (match dget p.parameter_types scope with
       | some m =>
         match dget m param_name with
         | some t =>
           let cur := (dget p.attribute_types scope).getD []
           { p with attribute_types := dinsert p.attribute_types scope (dinsert cur attrName t) }
         | none => p
       | none => p)
    | .call (.name cn) _ =>
      if dcontains p.class_defs cn then
        let cur := (dget p.attribute_types scope).getD []
        { p with attribute_types := dinsert p.attribute_types scope (dinsert cur attrName cn) }
      else p
    | _ => p
  | _ => p

def track_init_parameter_types (p : Proc) (class_name : String) (call_args : List PyExpr) (scope : String) : Proc :=
  match dget p.class_defs class_name with
  | some ci =>
    (match dget ci.methods "__init__" with
     | some initFd =>
       let param_names := initFd.args.drop 1
       let method_scope := "class_" ++ class_name ++ "___init__"
       let base := (dget p.parameter_types method_scope).getD []
       let updated := call_args.enum.foldl (fun m e =>
         if e.1 < param_names.length then
           let param_name := (param_names.get? e.1).getD ""
           match e.2 with
           | .name vid =>
             (match dget p.variable_types vid with
              | some t => dinsert m param_name t
              | none => m)
           | .attr v a =>
             (match resolve_object_type p (.attr v a) scope with
              | some t => dinsert m param_name t
              | none => m)
           | _ => m
         else m) base
       { p with parameter_types := dinsert p.parameter_types method_scope updated }
     | none => p)
  | none => p

def get_method_arguments (fd : FuncDef) : String :=
  strJoin ", " (fd.args.filter (fun a => !(a == "self")))

/-! ## The statement walker and its handlers

Handler return values: a node id (continue from it), Python `None`
(branch terminated), or Python `False` (node budget exhausted). -/

inductive HRes where
  | next (id : String)
  | stop
  | limit
  deriving Repr, DecidableEq

/-- One entry point of the mutually recursive walker: `_process_node_list`,
the per-statement-kind handlers, and the method-subgraph builder. -/
inductive Call where
  | pnl (stmts : List Stmt) (cur : String) (scope : String) (lbl : Option String)
  | pnlLoop (stmts : List Stmt) (idx : Nat) (cur : String) (scope : String)
  | hstmt (st : Stmt) (cur : String) (scope : String)
  | cIf (st : Stmt) (cur : String) (scope : String)
  | cExpr (st : Stmt) (cur : String) (scope : String)
  | cPrint (st : Stmt) (cur : String) (scope : String)
  | cPrintCalls (st : Stmt) (cur : String) (scope : String)
  | cPrintLoop (calls : List PyExpr) (counter : List (String × Nat)) (cur : String) (scope : String)
  | cAssign (st : Stmt) (cur : String) (scope : String)
  | cAug (st : Stmt) (cur : String) (scope : String)
  | cPass (st : Stmt) (cur : String) (scope : String)
  | cClassDef (st : Stmt) (cur : String) (scope : String)
  | cFuncDef (st : Stmt) (cur : String) (scope : String)
  | cExitFn (st : Stmt) (cur : String) (scope : String)
  | cMethodCall (st : Stmt) (cur : String) (scope : String) (mname : String) (cname : Option String)
  | cInstantiation (st : Stmt) (cur : String) (scope : String) (cname : String)
  | cInstAssign (st : Stmt) (cur : String) (scope : String) (cname : String)
  | cMethodCallAssign (st : Stmt) (cur : String) (scope : String) (mname : String)
  | cCreateMS (cname mname : String) (fd : FuncDef) (callId : String)
  | cMethodBody (fd : FuncDef) (methodId methodScope : String)
  | cMainFlow (stmts : List Stmt) (cur : String)

def maybe_highlight (p : Proc) (st : Stmt) (text : String) : String :=
  if should_highlight_breakpoint p (some st.lineno) then
    (if text == "" then "" else "üî¥ " ++ text)
  else text

/-- One step of the walker: every recursive invocation goes through `rec`. -/
def runStep (rec : Call → Proc → HRes × Proc) : Call → Proc → HRes × Proc := fun c p =>
  match c with
  | .pnl stmts cur scope lbl =>
    let p :=
      match lbl with
      | some l => { p with next_node_label := some l }
      | none => p
    let p :=
      if scope ≠ "" && dcontains p.function_defs scope
          && !((dvalues p.function_start_nodes).contains cur) then
        { p with function_start_nodes := dinsert p.function_start_nodes scope cur }
      else p
    rec (.pnlLoop stmts 0 cur scope) p
  | .pnlLoop stmts idx cur scope =>
    (match stmts with
     | [] => (.next cur, p)
     | st :: rest =>
       if !(should_process_node p st idx) then rec (.pnlLoop rest (idx + 1) cur scope) p
       else
         let p := { p with last_added_lineno := some st.lineno }
         let r := rec (.hstmt st cur scope) p
         let p := { r.2 with next_node_label := none }
         match r.1 with
         | .next new_id =>
           if new_id == cur then rec (.pnlLoop rest (idx + 1) cur scope) p
           else rec (.pnlLoop rest (idx + 1) new_id scope) p
         | .limit => (.next cur, handle_max_nodes_exceeded p cur)
         | .stop => (.next cur, p))
  | .hstmt st cur scope =>
    (match st with
     | .ifStmt _ _ _ _ => rec (.cIf st cur scope) p
     | .exprStmt _ _ => rec (.cExpr st cur scope) p
     | .assign _ _ _ => rec (.cAssign st cur scope) p
     | .augAssign _ _ _ _ => rec (.cAug st cur scope) p
     | .passStmt _ => rec (.cPass st cur scope) p
     | .functionDef _ => rec (.cFuncDef st cur scope) p
     | .classDef _ _ _ => rec (.cClassDef st cur scope) p)
  | .cIf st cur scope =>
    (match st with
     | .ifStmt _ testTxt body orelse =>
       let condition_text := get_node_text_test testTxt
       let condition_text :=
         if CONDITION_TRUNCATE < strLenChars condition_text then
           strTake condition_text (CONDITION_TRUNCATE - 3) ++ "..."
         else condition_text
       let text := "if " ++ condition_text
       let g := generate_id p "if_cond"
       let cond_id := g.1
       let p := (add_node g.2 cond_id text SHAPE_condition (some scope)).2
       let p := add_connection p cur cond_id "" false
       let r1 := rec (.pnl body cond_id scope (some "True")) p
       let true_path_end := match r1.1 with | .next i => i | _ => ""
       let p := r1.2
       if !orelse.isEmpty then
         let g2 := generate_id p "merge"
         let merge_id := g2.1
         let p := (add_node g2.2 merge_id " " SHAPE_merge none).2
         let p := if true_path_end ≠ "" then add_connection p true_path_end merge_id "" false else p
         let r2 := rec (.pnl orelse cond_id scope (some "False")) p
         let false_path_end := match r2.1 with | .next i => i | _ => ""
         let p := r2.2
         let p := if false_path_end ≠ "" then add_connection p false_path_end merge_id "" false else p
         (.next merge_id, p)
       else
         if !(filter_main_guard st) then
           let g2 := generate_id p "end"
           let true_end_id := g2.1
           let p := (add_node g2.2 true_end_id "End" SHAPE_end none).2
           let p := if true_path_end ≠ "" then add_connection p true_path_end true_end_id "" false else p
           let p :=
             match p.end_id with
             | some e => add_connection p cond_id e "False" false
             | none => p
           (.stop, p)
         else
           if true_path_end ≠ "" && true_path_end ≠ cond_id then
             let g2 := generate_id p "merge"
             let merge_id := g2.1
             let p := (add_node g2.2 merge_id " " SHAPE_merge none).2
             let p := add_connection p true_path_end merge_id "" false
             let p := add_connection p cond_id merge_id "False" false
             (.next merge_id, p)
           else if true_path_end ≠ "" && true_path_end == cond_id then
             let g2 := generate_id p "merge"
             let merge_id := g2.1
             let p := (add_node g2.2 merge_id " " SHAPE_merge none).2
             let p := add_connection p cond_id merge_id "False" false
             (.next merge_id, p)
           else (.next cond_id, p)
     | _ => (.next cur, p))
  | .cExpr st cur scope =>
    (match st with
     | .exprStmt _ v =>
       (match v with
        | .call f _args =>
          let func_name : Option String := match f with | .name id => some id | _ => none
          (match f with
           | .attr recv attrName =>
             let exitHit :=
               match recv with
               | .name mid => EXIT_FUNCTIONS.contains (mid ++ "." ++ attrName)
               | _ => false
             if exitHit then rec (.cExitFn st cur scope) p
             else
               let cnameForCall : Option String :=
                 match recv with
                 | .name id => if dcontains p.class_defs id then some id else none
                 | _ => none
               rec (.cMethodCall st cur scope attrName cnameForCall) p
           | _ =>
             let isExit := match func_name with | some fn => EXIT_FUNCTIONS.contains fn | none => false
             if isExit then rec (.cExitFn st cur scope) p
             else if func_name == some "print" then rec (.cPrint st cur scope) p
             else if (match func_name with | some fn => dcontains p.class_defs fn | none => false) then
               -- `hasattr(call.func, 'attr')` is false in this arm, so this is
               -- instantiation; the later static-method arm is unreachable
               (if !p.show_classes then (.next cur, p)
                else rec (.cInstantiation st cur scope ((func_name).getD "")) p)
             else if !p.show_functions then (.next cur, p)
             else if (match func_name with | some fn => dcontains p.function_defs fn | none => false) then
               let fn := (func_name).getD ""
               if is_nesting_limit_exceeded p then
                 let g := generate_id p ("nesting_limit_" ++ fn)
                 let call_id := g.1
                 let text := "Call: " ++ get_node_text st ++ " (Max nesting depth " ++ toString MAX_NESTING_DEPTH ++ " exceeded)"
                 let text := maybe_highlight p st text
                 let p := (add_node g.2 call_id text SHAPE_function_call (some scope)).2
                 let p := add_connection p cur call_id "" false
                 (.next call_id, p)
               else if is_recursive_call fn scope then
                 let g := generate_id p ("recursive_call_" ++ fn)
                 let call_id := g.1
                 let text := maybe_highlight p st ("Recursive Call: " ++ get_node_text st)
                 let p := (add_node g.2 call_id text SHAPE_function_call (some scope)).2
                 let p := add_connection p cur call_id "" false
                 (match get_function_start_node p fn with
                  | some fstart =>
                    let p := add_connection p call_id fstart "Recursion" false
                    (.next call_id, record_recursive_call p fn call_id)
                  | none => (.next call_id, p))
               else
                 let p := setdefault_add_child p scope fn
                 (match dget p.function_defs fn with
                  | some fnode =>
                    let g := generate_id p ("call_" ++ fn)
                    let call_id := g.1
                    let text := maybe_highlight p st ("Call: " ++ get_node_text st)
                    let p := (add_node g.2 call_id text SHAPE_function_call (some scope)).2
                    let p := add_connection p cur call_id "" false
                    let g2 := generate_id p "end_call"
                    let end_call_id := g2.1
                    let p := (add_node g2.2 end_call_id " " SHAPE_merge none).2
                    let p := { p with call_stack := p.call_stack ++ [end_call_id] }
                    let p := { p with current_nesting_depth := p.current_nesting_depth + 1 }
                    let r := rec (.pnl fnode.body call_id fn none) p
                    let body_end := match r.1 with | .next i => i | _ => ""
                    let p := { r.2 with current_nesting_depth := r.2.current_nesting_depth - 1 }
                    let p := { p with call_stack := p.call_stack.dropLast }
                    let p := if body_end ≠ "" then add_connection p body_end end_call_id "" false else p
                    (.next end_call_id, p)
                  | none => (.next cur, p))
             else
               let g := generate_id p "expr"
               let expr_id := g.1
               let ar := add_node g.2 expr_id (get_node_text st) SHAPE_function_call (some scope)
               if !ar.1 then (.limit, ar.2)
               else (.next expr_id, add_connection ar.2 cur expr_id "" false))
        | _ =>
          let g := generate_id p "expr"
          let expr_id := g.1
          let ar := add_node g.2 expr_id (get_node_text st) SHAPE_print (some scope)
          if !ar.1 then (.limit, ar.2)
          else (.next expr_id, add_connection ar.2 cur expr_id "" false))
     | _ => (.next cur, p))
  | .cPrint st cur scope =>
    if !p.show_prints then (.next cur, p)
    else if should_consolidate_with_previous p cur scope then
      (.next cur, consolidate_with_previous p st cur)
    else
      (match st with
       | .exprStmt _ (.call _ args) =>
         if !args.isEmpty && args.any (fun a => match a with | .call _ _ => true | _ => false) then
           rec (.cPrintCalls st cur scope) p
         else
           let g := generate_id p "print"
           let print_id := g.1
           let p := (add_node g.2 print_id (get_node_text st) SHAPE_print (some scope)).2
           (.next print_id, add_connection p cur print_id "" false)
       | _ =>
         let g := generate_id p "print"
         let print_id := g.1
         let p := (add_node g.2 print_id (get_node_text st) SHAPE_print (some scope)).2
         (.next print_id, add_connection p cur print_id "" false))
  | .cPrintCalls st cur scope =>
    (match st with
     | .exprStmt _ (.call _ args) =>
       let g := generate_id p "print"
       let print_id := g.1
       let p := (add_node g.2 print_id (get_node_text st) SHAPE_print (some scope)).2
       let p := add_connection p cur print_id "" false
       let function_calls := args.filter (fun a => match a with | .call _ _ => true | _ => false)
       rec (.cPrintLoop function_calls [] print_id scope) p
     | _ => (.next cur, p))
  | .cPrintLoop calls counter cur scope =>
    (match calls with
     | [] => (.next cur, p)
     | fc :: rest =>
       let fn? : Option String := match fc with | .call (.name id) _ => some id | _ => none
       (match fn? with
        | some fn =>
          if dcontains p.function_defs fn then
            let k := ((dget counter fn).getD 0) + 1
            let counter := dinsert counter fn k
            if is_nesting_limit_exceeded p then
              let g := generate_id p ("nesting_limit_" ++ fn ++ "_" ++ toString k)
              let call_id := g.1
              let text := "Call: " ++ get_node_text (.exprStmt 0 fc) ++ " (Max nesting depth " ++ toString MAX_NESTING_DEPTH ++ " exceeded)"
              let p := (add_node g.2 call_id text SHAPE_function_call (some scope)).2
              let p := add_connection p cur call_id "" false
              rec (.cPrintLoop rest counter call_id scope) p
            else
              let g := generate_id p ("call_" ++ fn ++ "_" ++ toString k)
              let call_id := g.1
              let text := "Call: " ++ get_node_text (.exprStmt 0 fc)
              let p := (add_node g.2 call_id text SHAPE_function_call (some scope)).2
              let p := add_connection p cur call_id "" false
              let unique_scope := fn ++ "_call_" ++ toString k
              (match dget p.function_defs fn with
               | some fnode =>
                 let g2 := generate_id p "end_call"
                 let end_call_id := g2.1
                 let p := (add_node g2.2 end_call_id " " SHAPE_merge none).2
                 let p := { p with call_stack := p.call_stack ++ [end_call_id] }
                 let p := { p with current_nesting_depth := p.current_nesting_depth + 1 }
                 let r := rec (.pnl fnode.body call_id unique_scope none) p
                 let body_end := match r.1 with | .next i => i | _ => ""
                 let p := { r.2 with current_nesting_depth := r.2.current_nesting_depth - 1 }
                 let p := { p with call_stack := p.call_stack.dropLast }
                 let p := if body_end ≠ "" then add_connection p body_end end_call_id "" false else p
                 rec (.cPrintLoop rest counter end_call_id scope) p
               | none => rec (.cPrintLoop rest counter call_id scope) p)
          else rec (.cPrintLoop rest counter cur scope) p
        | none => rec (.cPrintLoop rest counter cur scope) p))
  | .cAssign st cur scope =>
    (match st with
     | .assign _ targets v =>
       let p := track_attribute_assignment p st scope
       let isCallAssign := targets.length == 1 && (match v with | .call _ _ => true | _ => false)
       if isCallAssign then
         (match v with
          | .call f _args =>
            let func_name : Option String := match f with | .name id => some id | _ => none
            if (match func_name with | some fn => dcontains p.class_defs fn | none => false) then
              (if !p.show_classes then (.next cur, p)
               else rec (.cInstAssign st cur scope ((func_name).getD "")) p)
            else
              (match f with
               | .attr _ attrName =>
                 if !p.show_classes then (.next cur, p)
                 else rec (.cMethodCallAssign st cur scope attrName) p
               | _ =>
                 if !p.show_functions then (.next cur, p)
                 else if (match func_name with | some fn => dcontains p.function_defs fn | none => false) then
                   let fn := (func_name).getD ""
                   if is_nesting_limit_exceeded p then
                     let g := generate_id p "nesting_limit_assign"
                     let assign_id := g.1
                     let text := get_node_text st ++ "\n (Max nesting depth " ++ toString MAX_NESTING_DEPTH ++ " exceeded)"
                     let p := (add_node g.2 assign_id text SHAPE_default (some scope)).2
                     let p := add_connection p cur assign_id "" false
                     (.next assign_id, p)
                   else if is_recursive_call fn scope then
                     let g := generate_id p "recursive_assign"
                     let assign_id := g.1
                     let p := (add_node g.2 assign_id (get_node_text st) SHAPE_default (some scope)).2
                     let p := add_connection p cur assign_id "" false
                     (match get_function_start_node p fn with
                      | some fstart =>
                        let p := add_connection p assign_id fstart "Recursion" false
                        (.next assign_id, record_recursive_call p fn assign_id)
                      | none => (.next assign_id, p))
                   else
                     let g := generate_id p "assign"
                     let assign_id := g.1
                     let p := (add_node g.2 assign_id (get_node_text st) SHAPE_default (some scope)).2
                     let p := add_connection p cur assign_id "" false
                     let p := setdefault_add_child p scope fn
                     (match dget p.function_defs fn with
                      | some fnode =>
                        let g2 := generate_id p "end_call"
                        let end_call_id := g2.1
                        let p := (add_node g2.2 end_call_id " " SHAPE_merge none).2
                        let p := { p with call_stack := p.call_stack ++ [end_call_id] }
                        let p := { p with current_nesting_depth := p.current_nesting_depth + 1 }
                        let r := rec (.pnl fnode.body assign_id fn none) p
                        let body_end := match r.1 with | .next i => i | _ => ""
                        let p := { r.2 with current_nesting_depth := r.2.current_nesting_depth - 1 }
                        let p := { p with call_stack := p.call_stack.dropLast }
                        let p := if body_end ≠ "" then add_connection p body_end end_call_id "" false else p
                        (.next end_call_id, p)
                      | none => (.next assign_id, p))
                 else
                   if should_consolidate_with_previous p cur scope then
                     (.next cur, consolidate_with_previous p st cur)
                   else
                     let g := generate_id p "assign"
                     let assign_id := g.1
                     let p := (add_node g.2 assign_id (get_node_text st) SHAPE_default (some scope)).2
                     (.next assign_id, add_connection p cur assign_id "" false))
          | _ => (.next cur, p))
       else
         if should_consolidate_with_previous p cur scope then
           (.next cur, consolidate_with_previous p st cur)
         else
           let g := generate_id p "assign"
           let assign_id := g.1
           let p := (add_node g.2 assign_id (get_node_text st) SHAPE_default (some scope)).2
           (.next assign_id, add_connection p cur assign_id "" false)
     | _ => (.next cur, p))
  | .cAug st cur scope =>
    (match st with
     | .augAssign _ target op v =>
       if should_consolidate_with_previous p cur scope then
         (.next cur, consolidate_with_previous p st cur)
       else
         -- `_get_operator_symbol` maps the AST operator class to its symbol,
         -- which this AST subset carries directly in the `op` field
         let g := generate_id p "augassign"
         let augassign_id := g.1
         let text := get_node_text_expr target ++ " " ++ op ++ " " ++ get_node_text_expr v
         let p := (add_node g.2 augassign_id text SHAPE_default (some scope)).2
         (.next augassign_id, add_connection p cur augassign_id "" false)
     | _ => (.next cur, p))
  | .cPass _st cur scope =>
    let g := generate_id p "pass"
    let pass_id := g.1
    let p := (add_node g.2 pass_id "Pass" SHAPE_print (some scope)).2
    (.next pass_id, add_connection p cur pass_id "" false)
  | .cClassDef st cur _scope =>
    if !p.show_classes then (.next cur, p)
    else
      (match st with
       | .classDef _ cname body =>
         let p :=
           if !(dcontains p.class_defs cname) then
             { p with class_defs := dinsert p.class_defs cname { body := body, methods := [] } }
           else p
         -- `_extract_class_context` only fills the write-only `context_data`
         -- documentation map, which nothing in the modelled pipeline reads
         let p := body.foldl (fun p item =>
           match item with
           | .functionDef fd =>
             { p with method_defs := dinsert p.method_defs (cname ++ "." ++ fd.name) fd }
           | _ => p) p
         let class_scope := "class_" ++ cname
         let g := generate_id p "class_dummy"
         let dummy_id := g.1
         let p := (add_node g.2 dummy_id " " SHAPE_default (some class_scope)).2
         (.next cur, p)
       | _ => (.next cur, p))
  | .cFuncDef _st cur _scope => (.next cur, p)
  | .cExitFn st cur scope =>
    let g := generate_id p "exit_function"
    let exit_id := g.1
    let text := "Exit: " ++ get_node_text st
    let p := (add_node g.2 exit_id text SHAPE_exit (some scope)).2
    let p := add_connection p cur exit_id "" false
    (.stop, p)
  | .cMethodCall st cur scope mname cname =>
    let g := generate_id p "method_call"
    let method_call_id := g.1
    let text := "Call: " ++ get_node_text st
    let p := (add_node g.2 method_call_id text SHAPE_function_call (some scope)).2
    let p := add_connection p cur method_call_id "" false
    if !p.show_classes then (.next method_call_id, p)
    else
      let classHit : Option (String × FuncDef) :=
        match cname with
        | some cn =>
          (match dget p.class_defs cn with
           | some ci =>
             (match dget ci.methods mname with
              | some fd => some (cn, fd)
              | none => none)
           | none => none)
        | none => none
      (match classHit with
       | some (cn, fd) =>
         let entry_type := match p.context with | some c => c.entry_type | none => none
         if entry_type ≠ some "class" && fd.args ≠ [] && fd.args.head? == some "self" then
           let g2 := generate_id p "error"
           let error_id := g2.1
           let etext := "‚ùå Instance method \x27" ++ mname ++ "\x27 called on class \x27" ++ cn ++ "\x27 without instantiation"
           let p := (add_node g2.2 error_id etext SHAPE_exception (some scope)).2
           let p := add_connection p method_call_id error_id "" false
           (.next error_id, p)
         else
           let r := rec (.cCreateMS cn mname fd method_call_id) p
           let method_exit_id := match r.1 with | .next i => i | _ => ""
           let p := r.2
           if p.sequential_flow && method_exit_id ≠ "" && method_exit_id ≠ method_call_id then
             (.next method_exit_id, p)
           else (.next method_call_id, p)
       | none =>
         (match st with
          | .exprStmt _ (.call (.attr recv _) _) =>
            let resolved0 := resolve_object_type p recv scope
            let resolved :=
              match resolved0 with
              | some t => some t
              | none =>
                match recv with
                | .name "self" =>
                  if scope ≠ "" && strStartsWith scope "class_" then
                    let parts := strSplitOnChar scope '_'
                    if 2 ≤ parts.length then parts.get? 1 else none
                  else none
                | _ => none
            let resolvedHit : Option (String × FuncDef) :=
              match resolved with
              | some rc =>
                (match dget p.class_defs rc with
                 | some ci =>
                   (match dget ci.methods mname with
                    | some fd => some (rc, fd)
                    | none => none)
                 | none => none)
              | none => none
            (match resolvedHit with
             | some (rc, fd) =>
               let r := rec (.cCreateMS rc mname fd method_call_id) p
               let method_exit_id := match r.1 with | .next i => i | _ => ""
               let p := r.2
               if p.sequential_flow && method_exit_id ≠ "" && method_exit_id ≠ method_call_id then
                 (.next method_exit_id, p)
               else (.next method_call_id, p)
             | none =>
               let g2 := generate_id p "error"
               let error_id := g2.1
               let etext :=
                 match resolved with
                 | some rc => "‚ùå Method \x27" ++ mname ++ "\x27 not found in " ++ rc
                 | none => "‚ùå Could not resolve class for method \x27" ++ mname ++ "\x27"
               let p := (add_node g2.2 error_id etext SHAPE_exception (some scope)).2
               let p := add_connection p method_call_id error_id "" false
               (.next error_id, p))
          | _ =>
            -- only reachable from the attribute-call dispatch, so this arm
            -- (where the source would raise NameError) cannot fire
            (.next method_call_id, p)))
  | .cInstantiation st cur scope cname =>
    let g := generate_id p "instantiate"
    let inst_id := g.1
    let text := "Create: " ++ get_node_text st
    let p := (add_node g.2 inst_id text SHAPE_function_call (some scope)).2
    let p := add_connection p cur inst_id "" false
    (match dget p.class_defs cname with
     | some ci =>
       (match dget ci.methods "__init__" with
        | some initFd =>
          let r := rec (.cCreateMS cname "__init__" initFd inst_id) p
          (.next inst_id, r.2)
        | none =>
          let class_scope := "class_" ++ cname
          let class_nodes := (p.node_scopes.filter (fun e => e.2 == some class_scope)).map (fun e => e.1)
          (match class_nodes.head? with
           | some cnid => (.next inst_id, add_connection p inst_id cnid "Instantiate" false)
           | none => (.next inst_id, p)))
     | none => (.next inst_id, p))
  | .cInstAssign st cur scope cname =>
    (match st with
     | .assign _ targets v =>
       let g := generate_id p "assign"
       let assign_id := g.1
       let p := (add_node g.2 assign_id (get_node_text st) SHAPE_default (some scope)).2
       let p := add_connection p cur assign_id "" false
       let p :=
         match targets with
         | [.name var_name] => { p with variable_types := dinsert p.variable_types var_name cname }
         | _ => p
       let p :=
         match v with
         | .call _ args =>
           if dcontains p.class_defs cname then track_init_parameter_types p cname args scope else p
         | _ => p
       (match dget p.class_defs cname with
        | some ci =>
          (match dget ci.methods "__init__" with
           | some initFd => (.next assign_id, (rec (.cCreateMS cname "__init__" initFd assign_id) p).2)
           | none => (.next assign_id, p))
        | none => (.next assign_id, p))
     | _ => (.next cur, p))
  | .cMethodCallAssign st cur scope mname =>
    (match st with
     | .assign _ _ v =>
       let g := generate_id p "assign"
       let assign_id := g.1
       let p := (add_node g.2 assign_id (get_node_text st) SHAPE_default (some scope)).2
       let p := add_connection p cur assign_id "" false
       let redundant : Option String :=
         if mname == "__init__" then
           match v with
           | .call (.attr (.call (.name cn) _) _) _ =>
             if dcontains p.class_defs cn then some cn else none
           | _ => none
         else none
       (match redundant with
        | some cn =>
          let p :=
            match dget p.class_defs cn with
            | some ci =>
              (match dget ci.methods "__init__" with
               | some initFd => (rec (.cCreateMS cn "__init__" initFd assign_id) p).2
               | none => p)
            | none => p
          let g2 := generate_id p "warning"
          let warning_id := g2.1
          let wtext := "‚ö†Ô∏è Redundant __init__ call: " ++ cn ++ "() already calls constructor"
          let p := (add_node g2.2 warning_id wtext SHAPE_exception (some scope)).2
          let p := add_connection p assign_id warning_id "" false
          (.next warning_id, p)
        | none =>
          (match v with
           | .call (.attr recv _) _ =>
             let resolved0 := resolve_object_type p recv scope
             let resolved :=
               match resolved0 with
               | some t => some t
               | none =>
                 match recv with
                 | .name "self" =>
                   if scope ≠ "" && strStartsWith scope "class_" then
                     let parts := strSplitOnChar scope '_'
                     if 2 ≤ parts.length then parts.get? 1 else none
                   else none
                 | _ => none
             let resolvedHit : Option (String × FuncDef) :=
               match resolved with
               | some rc =>
                 (match dget p.class_defs rc with
                  | some ci =>
                    (match dget ci.methods mname with
                     | some fd => some (rc, fd)
                     | none => none)
                  | none => none)
               | none => none
             (match resolvedHit with
              | some (rc, fd) =>
                let directClass :=
                  match recv with
                  | .name cid => dcontains p.class_defs cid
                  | _ => false
                if directClass && fd.args ≠ [] && fd.args.head? == some "self" then
                  let g2 := generate_id p "error"
                  let error_id := g2.1
                  let etext := "‚ùå Instance method \x27" ++ mname ++ "\x27 called on class \x27" ++ rc ++ "\x27 without instantiation"
                  let p := (add_node g2.2 error_id etext SHAPE_exception (some scope)).2
                  let p := add_connection p assign_id error_id "" false
                  (.next error_id, p)
                else
                  let r := rec (.cCreateMS rc mname fd assign_id) p
                  let method_exit_id := match r.1 with | .next i => i | _ => ""
                  let p := r.2
                  let p :=
                    if p.sequential_flow && method_exit_id ≠ "" && method_exit_id ≠ assign_id then
                      add_connection p method_exit_id assign_id "" false
                    else p
                  (.next assign_id, p)
              | none =>
                let g2 := generate_id p "error"
                let error_id := g2.1
                let etext :=
                  match resolved with
                  | some rc => "‚ùå Method \x27" ++ mname ++ "\x27 not found in " ++ rc
                  | none => "‚ùå Could not resolve class for method \x27" ++ mname ++ "\x27"
                let p := (add_node g2.2 error_id etext SHAPE_exception (some scope)).2
                let p := add_connection p assign_id error_id "" false
                (.next error_id, p))
           | _ => (.next assign_id, p)))
     | _ => (.next cur, p))
  | .cCreateMS cname mname fd call_node_id =>
    let method_scope := "class_" ++ cname ++ "_" ++ mname
    let method_key := cname ++ "." ++ mname
    (match dget p.method_subgraphs method_key with
     | some existing_method_id =>
       let p :=
         if p.sequential_flow then add_connection p call_node_id existing_method_id "Call" false
         else
           let p := add_connection p call_node_id existing_method_id "Call and Return" true
           { p with method_calling_nodes := dinsert p.method_calling_nodes method_scope call_node_id }
       let last_node_id :=
         match dget p.method_last_nodes existing_method_id with
         | some l => l
         | none => existing_method_id
       let p := { p with method_last_nodes := dinsert p.method_last_nodes call_node_id last_node_id }
       if p.sequential_flow then
         (match dget p.method_exit_nodes method_scope with
          | some exits =>
            (match exits.getLast? with
             | some e => (.next e, p)
             | none => (.next last_node_id, p))
          | none => (.next last_node_id, p))
       else (.next last_node_id, p)
     | none =>
       let g := generate_id p ("method_" ++ mname)
       let method_id := g.1
       let p := { g.2 with last_added_lineno := some fd.lineno }
       let args_text := get_method_arguments fd
       let text :=
         if mname == "__init__" then "Constructor: __init__(" ++ args_text ++ ")"
         else "Method: " ++ mname ++ "(" ++ args_text ++ ")"
       let p := (add_node p method_id text SHAPE_function_call (some method_scope)).2
       let p := { p with method_subgraphs := dinsert p.method_subgraphs method_key method_id }
       let p :=
         if p.sequential_flow then add_connection p call_node_id method_id "Call" false
         else add_connection p call_node_id method_id "Call and Return" true
       let p := { p with method_calling_nodes := dinsert p.method_calling_nodes method_scope call_node_id }
       let r := rec (.cMethodBody fd method_id method_scope) p
       let last_node_id := match r.1 with | .next i => i | _ => ""
       let p := r.2
       let p := { p with method_last_nodes := dinsert p.method_last_nodes call_node_id (if last_node_id ≠ "" then last_node_id else method_id) }
       if p.sequential_flow then
         (match dget p.method_exit_nodes method_scope with
          | some exits =>
            (match exits.getLast? with
             | some e => (.next e, p)
             | none => (.next last_node_id, p))
          | none => (.next last_node_id, p))
       else (.next last_node_id, p))
  | .cMethodBody fd method_id method_scope =>
    if !fd.body.isEmpty then rec (.pnl fd.body method_id method_scope none) p
    else (.next method_id, p)
  | .cMainFlow stmts cur =>
    (match stmts with
     | [] => (.next cur, p)
     | st :: rest =>
       let p := { p with last_added_lineno := some st.lineno }
       let r := rec (.hstmt st cur "main") p
       (match r.1 with
        | .next new_id => rec (.cMainFlow rest new_id) r.2
        | .limit => (.limit, r.2)
        | .stop => (.stop, r.2)))

/-- The fuel-indexed walker; out of fuel it stops with the state unchanged. -/
def run : Nat → Call → Proc → HRes × Proc
  | 0, _, p => (.stop, p)
  | fuel + 1, c, p => runStep (run fuel) c p

/-- `_process_node_list` (always hands back the current id). -/
def process_node_list (fuel : Nat) (stmts : List Stmt) (cur scope : String)
    (lbl : Option String) (p : Proc) : String × Proc :=
  match run fuel (.pnl stmts cur scope lbl) p with
  | (.next i, p') => (i, p')
  | (_, p') => (cur, p')

/-- `process_code`: start/end nodes, definition registration, main flow, and
the final end connection. `ast.parse` and `_extract_context` only build
documentation metadata and are not modelled. -/
def process_code (fuel : Nat) (prog : List Stmt) (p : Proc) : Proc :=
  let g := generate_id p "start"
  let start_id := g.1
  let p := (add_node g.2 start_id "Start" SHAPE_start none).2
  let g2 := generate_id p "end"
  let end_id := g2.1
  let p := { g2.2 with end_id := some end_id }
  let p := (add_node p end_id "End" SHAPE_end none).2
  let main_flow_nodes := prog.filter (fun st => match st with | .functionDef _ => false | _ => true)
  let p := prog.foldl (fun p st =>
    match st with
    | .functionDef fd => { p with function_defs := dinsert p.function_defs fd.name fd }
    | .classDef _ cname body =>
      let methods := body.foldl (fun m item =>
        match item with
        | .functionDef fd => dinsert m fd.name fd
        | _ => m) []
      { p with class_defs := dinsert p.class_defs cname { body := body, methods := methods } }
    | _ => p) p
  let r := run fuel (.cMainFlow main_flow_nodes start_id) p
  let p := r.2
  match r.1 with
  | .next current_id =>
    if current_id ≠ "" && current_id ≠ start_id then
      match dget p.method_last_nodes current_id with
      | some end_node =>
        if end_node ≠ "" && end_node ≠ current_id then add_connection p end_node end_id "" false
        else add_connection p current_id end_id "" false
      | none => add_connection p current_id end_id "" false
    else p
  | _ => p

/-! ## Connection parsing (the `re` patterns of the post-processing passes)

`conn_pattern = \s*(\w+)\s*(<)?-->(?:\|(.*?)\|)?\s*(\w+)\s*`, applied with
`re.match`.  Backtracking past the first closing pipe could only matter for
labels that themselves contain `|`, which the builder never emits. -/

def splitFirstPipeL : List Char → Option (List Char × List Char)
  | [] => none
  | c :: t =>
    if c == '|' then some ([], t)
    else (splitFirstPipeL t).map (fun pr => (c :: pr.1, pr.2))

def parse_connection (s : String) : Option (String × Bool × Option String × String) :=
  let cs := dropWsL s.data
  let w1 := takeWordL cs
  if w1.1.isEmpty then none
  else
    let cs := dropWsL w1.2
    let st :=
      match cs with
      | '<' :: t => (true, t)
      | _ => (false, cs)
    match st.2 with
    | '-' :: '-' :: '>' :: cs2 =>
      let lab : Option (Option String × List Char) :=
        match cs2 with
        | '|' :: t =>
          (match splitFirstPipeL t with
           | some pr => some (some (String.mk pr.1), pr.2)
           | none => none)
        | _ => some (none, cs2)
      (match lab with
       | none => none
       | some (label?, cs3) =>
         let cs3 := dropWsL cs3
         let w2 := takeWordL cs3
         if w2.1.isEmpty then none
         else some (String.mk w1.1, st.1, label?, String.mk w2.1))
    | _ => none

/-- The pruning pass's pattern `\s*(\w+)\s*-->(?:\|(.*?)\|)?\s*(\w+)\s*`:
unlike the other two passes it has no `(<)?` group, so a bidirectional
`<-->` connection does not match at all. -/
def parse_connection_nb (s : String) : Option (String × Option String × String) :=
  let cs := dropWsL s.data
  let w1 := takeWordL cs
  if w1.1.isEmpty then none
  else
    let cs := dropWsL w1.2
    match cs with
    | '-' :: '-' :: '>' :: cs2 =>
      let lab : Option (Option String × List Char) :=
        match cs2 with
        | '|' :: t =>
          (match splitFirstPipeL t with
           | some pr => some (some (String.mk pr.1), pr.2)
           | none => none)
        | _ => some (none, cs2)
      (match lab with
       | none => none
       | some (label?, cs3) =>
         let cs3 := dropWsL cs3
         let w2 := takeWordL cs3
         if w2.1.isEmpty then none
         else some (String.mk w1.1, label?, String.mk w2.1))
    | _ => none

/-! ## GraphOptimizer (post_processing/optimization.py) -/

/-- `re.search(r"\{\{\s*\}\}$", node_def)`. -/
def bypass_def_matches (d : String) : Bool :=
  match d.data.reverse with
  | c1 :: c2 :: rest =>
    if c1 == rbrace && c2 == rbrace then
      (match dropWsL rest with
       | c3 :: c4 :: _ => c3 == lbrace && c4 == lbrace
       | _ => false)
    else false
  | _ => false

/-- The `while target in forwarding_map` chase; each pass consumes a fresh
key of `fm`, so fuel `fm.length + 1` always runs the loop to completion. -/
def chase_forwarding (fm : List (String × String)) : Nat → List String → String → List String × String
  | 0, visited, target => (visited, target)
  | fuel + 1, visited, target =>
    match dget fm target with
    | some nxt =>
      if visited.contains nxt then (visited, target)
      else chase_forwarding fm fuel (visited ++ [nxt]) nxt
    | none => (visited, target)

def resolve_forwarding (fm0 : List (String × String)) : List (String × String) :=
  (dkeys fm0).foldl (fun fm key =>
    match dget fm key with
    | some t0 =>
      let ch := chase_forwarding fm (fm.length + 1) [key] t0
      if ch.2 ≠ "" then ch.1.foldl (fun fm v => dinsert fm v ch.2) fm else fm
    | none => fm) fm0

/-- The `bypass_nodes` set of `optimize_graph`. -/
def bypassIds (p : Proc) : List String :=
  (p.nodes.filter (fun e => bypass_def_matches e.2)).map (fun e => e.1)

def optimize_graph (p : Proc) : Proc :=
  let bypass := bypassIds p
  if bypass.isEmpty then p
  else
    let fm0 := p.connections.foldl (fun fm conn =>
      match parse_connection conn with
      | some pr => if bypass.contains pr.1 then dinsert fm pr.1 pr.2.2.2 else fm
      | none => fm) ([] : List (String × String))
    let fm := resolve_forwarding fm0
    let new_connections := p.connections.foldl (fun acc conn =>
      match parse_connection conn with
      | some (from_id, bidi, label?, to_id) =>
        if bypass.contains from_id then acc
        else
          let to_id := match dget fm to_id with | some t => t | none => to_id
          let arrow := if bidi then "<-->" else "-->"
          let line :=
            match label? with
            | some l =>
              if l ≠ "" then "       " ++ from_id ++ " " ++ arrow ++ "|" ++ l ++ "| " ++ to_id
              else "       " ++ from_id ++ " " ++ arrow ++ " " ++ to_id
            | none => "       " ++ from_id ++ " " ++ arrow ++ " " ++ to_id
          acc ++ [line]
      | none => acc) []
    let nodes := bypass.foldl (fun ns k => derase ns k) p.nodes
    { p with connections := new_connections, nodes := nodes }

/-! ## Post-processing configuration and state -/

structure EnvConfig where
  subgraph_whitelist : List String := []
  force_collapse_list : List String := []
  max_subgraph_nodes : Nat := MAX_SUBGRAPH_NODES
  prune_unused_nodes : Bool := true
  deriving Repr

structure CollapsedSubgraph where
  node_count : Nat
  original_scope : String
  subgraph_name : String
  collapsed_node_id : String
  scope_nodes : List String
  status : String := "collapsed"
  deriving Repr

structure PostState where
  collapsed_subgraphs : List (String × CollapsedSubgraph) := []
  deriving Repr

/-! ## SubgraphManager (post_processing/subgraphs.py) -/

def get_node_count (p : Proc) (scope : Option String) : Nat :=
  match scope with
  | none => 0
  | some s => if s == "" then 0 else (p.node_scopes.filter (fun e => e.2 == some s)).length

def should_collapse (p : Proc) (cfg : EnvConfig) (scope : Option String) : Bool :=
  match scope with
  | none => false
  | some s =>
    if s == "" then false
    else if s == "main" then false
    else
      let entry_name : Option String :=
        match p.context with
        | some c => c.entry_name
        | none => none
      if cfg.force_collapse_list.contains s then true
      else if cfg.subgraph_whitelist.contains s then false
      else if (match entry_name with | some e => e ≠ "" && s == e | none => false) then false
      else
        let class_name : Option String :=
          if strStartsWith s "class_" && 6 < strLenChars s then some (strDropChars s 6) else none
        if (match class_name with | some cn => cfg.force_collapse_list.contains cn | none => false) then true
        else if (match class_name with | some cn => cfg.subgraph_whitelist.contains cn | none => false) then false
        else cfg.max_subgraph_nodes < get_node_count p (some s)

def splitOnFirstSubL (sub : List Char) : List Char → Option (List Char × List Char)
  | [] => none
  | c :: t =>
    if sub.isPrefixOf (c :: t) then some ([], (c :: t).drop sub.length)
    else (splitOnFirstSubL sub t).map (fun pr => (c :: pr.1, pr.2))

/-- Python `s.split(sub, 1)` restricted to the case where `sub` occurs. -/
def splitOnFirstSub (s sub : String) : String × String :=
  match splitOnFirstSubL sub.data s.data with
  | some pr => (String.mk pr.1, String.mk pr.2)
  | none => (s, "")

def describe_scope (scope : String) (node_count : Nat) : String :=
  if strStartsWith scope "class_" then
    let class_body := strDropChars scope 6
    if strContains class_body "_" then
      "Method: " ++ (splitOnFirstSub class_body "_").2 ++ " (" ++ toString node_count ++ " nodes)"
    else "Class: " ++ class_body ++ " (" ++ toString node_count ++ " nodes)"
  else if strContains scope "_call_" then
    let pr := splitOnFirstSub scope "_call_"
    "Function: " ++ pr.1 ++ "() - Call " ++ pr.2 ++ " (" ++ toString node_count ++ " nodes)"
  else if scope ≠ "" then "Function: " ++ scope ++ "() (" ++ toString node_count ++ " nodes)"
  else "Main Flow (" ++ toString node_count ++ " nodes)"

def collect_nested_nodes (p : Proc) : Nat → String → List String → List String
  | 0, _, node_set => node_set
  | fuel + 1, scope, node_set =>
    let children := (dget p.scope_children scope).getD []
    let node_set := children.foldl (fun ns child =>
      let child_nodes := (p.node_scopes.filter (fun e => e.2 == some child)).map (fun e => e.1)
      let ns := child_nodes.foldl listSetAdd ns
      collect_nested_nodes p fuel child ns) node_set
    if strStartsWith scope "class_" && !(strContains (strDropChars scope 6) "_") then
      let class_name := strDropChars scope 6
      let method_scopes := p.node_scopes.foldl (fun acc e =>
        match e.2 with
        | some v =>
          if v ≠ "" && strStartsWith v ("class_" ++ class_name ++ "_") then listSetAdd acc v else acc
        | none => acc) []
      method_scopes.foldl (fun ns method_scope =>
        let method_nodes := (p.node_scopes.filter (fun e => e.2 == some method_scope)).map (fun e => e.1)
        let ns := method_nodes.foldl listSetAdd ns
        collect_nested_nodes p fuel method_scope ns) node_set
    else node_set

def preprocess_subgraphs (p : Proc) (cfg : EnvConfig) (st : PostState) : Proc × PostState :=
  let scopes := p.node_scopes.foldl (fun acc e =>
    match e.2 with
    | some v => if v ≠ "" then listSetAdd acc v else acc
    | none => acc) []
  scopes.foldl (fun pr scope =>
    if !(should_collapse pr.1 cfg (some scope)) then pr
    else
      let p := pr.1
      let node_count := get_node_count p (some scope)
      let scope_nodes := (p.node_scopes.filter (fun e => e.2 == some scope)).map (fun e => e.1)
      let all_nodes := collect_nested_nodes p 1000 scope (scope_nodes.foldl listSetAdd [])
      let collapsed_node_id := "collapsed_nodes__" ++ scope ++ "_" ++ toString node_count
      let meta : CollapsedSubgraph :=
        { node_count := node_count,
          original_scope := scope,
          subgraph_name := describe_scope scope node_count,
          collapsed_node_id := collapsed_node_id,
          scope_nodes := sortBy strLe all_nodes }
      let st := { pr.2 with collapsed_subgraphs := dinsert pr.2.collapsed_subgraphs scope meta }
      let p := { p with nodes := all_nodes.foldl (fun ns k => derase ns k) p.nodes }
      (p, st)) (p, st)

def listSetAddG [BEq α] (l : List α) (x : α) : List α :=
  if l.contains x then l else l ++ [x]

def fmt_conn4 (from_id arrow : String) (label? : Option String) (to_id : String) : String :=
  match label? with
  | some l =>
    if l ≠ "" then "    " ++ from_id ++ " " ++ arrow ++ "|" ++ l ++ "| " ++ to_id
    else "    " ++ from_id ++ " " ++ arrow ++ " " ++ to_id
  | none => "    " ++ from_id ++ " " ++ arrow ++ " " ++ to_id

def optLabelLe (a b : Option String) : Bool :=
  match a, b with
  | none, _ => true
  | some _, none => false
  | some x, some y => strLe x y

def boolLe (a b : Bool) : Bool := !a || b

/-- Python tuple ordering for the boundary-connection sets (a mixed
`None`-vs-`str` label comparison would raise in the source; `None` is ordered
first here). -/
def tupLe (a b : String × String × Option String × Bool) : Bool :=
  if a.1 ≠ b.1 then strLe a.1 b.1
  else if a.2.1 ≠ b.2.1 then strLe a.2.1 b.2.1
  else if a.2.2.1 ≠ b.2.2.1 then optLabelLe a.2.2.1 b.2.2.1
  else boolLe a.2.2.2 b.2.2.2

def redirect_connections (p : Proc) (st : PostState) : Proc :=
  if st.collapsed_subgraphs.isEmpty then p
  else
    let node_redirect := st.collapsed_subgraphs.foldl (fun nr me =>
      me.2.scope_nodes.foldl (fun nr nid => dinsert nr nid me.2.collapsed_node_id) nr)
      ([] : List (String × String))
    let new0 := p.connections.foldl (fun acc conn =>
      match parse_connection conn with
      | some (from_id, bidi, label?, to_id) =>
        let new_from := (dget node_redirect from_id).getD from_id
        let new_to := (dget node_redirect to_id).getD to_id
        if !(dcontains p.nodes new_from) && new_from ≠ from_id then acc
        else if !(dcontains p.nodes new_to) && new_to ≠ to_id then acc
        else acc ++ [fmt_conn4 new_from (if bidi then "<-->" else "-->") label? new_to]
      | none => acc) []
    let boundary := st.collapsed_subgraphs.foldl (fun acc me =>
      let scope_nodes := me.2.scope_nodes
      let entry := p.connections.foldl (fun es conn =>
        match parse_connection conn with
        | some (from_id, bidi, label?, to_id) =>
          if scope_nodes.contains to_id && dcontains p.nodes from_id then
            listSetAddG es (from_id, me.2.collapsed_node_id, label?, bidi)
          else es
        | none => es) []
      let exits := p.connections.foldl (fun es conn =>
        match parse_connection conn with
        | some (from_id, bidi, label?, to_id) =>
          if scope_nodes.contains from_id && dcontains p.nodes to_id then
            listSetAddG es (me.2.collapsed_node_id, to_id, label?, bidi)
          else es
        | none => es) []
      acc ++ (sortBy tupLe entry ++ sortBy tupLe exits).map
        (fun t => fmt_conn4 t.1 (if t.2.2.2 then "<-->" else "-->") t.2.2.1 t.2.1)) []
    { p with connections := new0 ++ boundary }

/-! ## ViewModeFilter (post_processing/view_modes.py) -/

def convert_nodes_to_bypass (p : Proc) (node_ids : List String) : Proc :=
  node_ids.foldl (fun p nid =>
    if nid == "" || !(dcontains p.nodes nid) then p
    else if (match p.end_id with | some e => nid == e | none => false) || strStartsWith nid "start" then p
    else { p with nodes := dinsert p.nodes nid (nid ++ "\x7b\x7b\x7d\x7d") }) p

def is_simple_view_noise (node_id node_def : String) (scope : Option String) : Bool :=
  if node_def == "" then false
  else
    let lower := strLower node_def
    let stripped := strStrip lower
    if strContains lower "print" then true
    else if strStartsWith stripped "import" || strContains lower " import " then true
    else if ["raise", "except", "assert", " error"].any (fun t => strContains lower t) then true
    else if strStartsWith stripped "try" || strContains lower " try " then true
    else if strStartsWith stripped "pass" then true
    else if strStartsWith node_id "import" || strStartsWith node_id "raise" || strStartsWith node_id "assert" then true
    else if (match scope with | some s => strContains s "__init__" | none => false) then true
    else false

def remove_empty_init_subgraphs (p : Proc) : Proc :=
  let init_scopes := p.node_scopes.foldl (fun acc e =>
    match e.2 with
    | some v =>
      if v ≠ "" && strEndsWith v "__init__" && strStartsWith v "class_" then acc ++ [v] else acc
    | none => acc) []
  let empty_scopes := init_scopes.filter (fun scope =>
    (p.node_scopes.filter (fun e => e.2 == some scope)).isEmpty)
  let p := empty_scopes.foldl (fun p scope =>
    let nodes_to_remove := (p.node_scopes.filter (fun e => e.2 == some scope)).map (fun e => e.1)
    nodes_to_remove.foldl (fun p nid =>
      { p with node_scopes := derase p.node_scopes nid, nodes := derase p.nodes nid }) p) p
  p.method_subgraphs.foldl (fun p me =>
    if !(strEndsWith me.1 ".__init__") then p
    else
      let class_name := ((strSplitOnChar me.1 '.').get? 0).getD ""
      let scope := "class_" ++ class_name ++ "__init__"
      if empty_scopes.contains scope then
        { p with method_subgraphs := derase p.method_subgraphs me.1, nodes := derase p.nodes me.2 }
      else p) p

def view_mode_apply (p : Proc) : Proc :=
  if p.view_mode ≠ "compact" then p
  else
    let p := remove_empty_init_subgraphs p
    let nodes_to_hide := p.nodes.foldl (fun acc e =>
      let scope := (dget p.node_scopes e.1).getD none
      if is_simple_view_noise e.1 e.2 scope then acc ++ [e.1] else acc) []
    optimize_graph (convert_nodes_to_bypass p nodes_to_hide)

/-! ## Unreferenced-node pruning and the pipeline (core.py) -/

def prune_unreferenced_nodes (p : Proc) (cfg : EnvConfig) : Proc :=
  if !cfg.prune_unused_nodes then p
  else
    let referenced := p.connections.foldl (fun acc conn =>
      match parse_connection_nb conn with
      | some (from_id, _, to_id) => listSetAdd (listSetAdd acc from_id) to_id
      | none => acc) []
    let referenced :=
      match p.end_id with
      | some e => if e ≠ "" then listSetAdd referenced e else referenced
      | none => referenced
    let unused := (dkeys p.nodes).filter (fun k => !(referenced.contains k))
    if unused.isEmpty then p
    else unused.foldl (fun p nid =>
      { p with nodes := derase p.nodes nid, node_scopes := derase p.node_scopes nid }) p

/-- `FlowchartPostProcessor.post_process`: collapse preprocessing, bypass
elimination, connection redirection, view-mode filtering, pruning. -/
def post_process (p : Proc) (cfg : EnvConfig) (st : PostState) : Proc × PostState :=
  let pr := preprocess_subgraphs p cfg st
  let p := optimize_graph pr.1
  let p := redirect_connections p pr.2
  let p := view_mode_apply p
  let p := prune_unreferenced_nodes p cfg
  (p, pr.2)

/-! ## Idempotence of bypass elimination (C3) -/

theorem mem_derase {α : Type} {d : List (String × α)} {k : String} {e : String × α} :
    e ∈ derase d k ↔ e ∈ d ∧ e.1 ≠ k := by
  simp [derase, List.mem_filter]

theorem mem_foldl_derase {α : Type} (l : List String) (d : List (String × α)) (e : String × α) :
    e ∈ l.foldl (fun ns k => derase ns k) d ↔ e ∈ d ∧ e.1 ∉ l := by
  induction l generalizing d with
  | nil => simp
  | cons k t ih =>
    simp only [List.foldl_cons, ih, mem_derase, List.mem_cons]
    tauto

theorem optimize_graph_nodes (p : Proc) (h : (bypassIds p).isEmpty = false) :
    (optimize_graph p).nodes = (bypassIds p).foldl (fun ns k => derase ns k) p.nodes := by
  unfold optimize_graph
  simp [h]

theorem bypassIds_optimize (p : Proc) :
    bypassIds (optimize_graph p) = [] ∨ optimize_graph p = p := by
  by_cases h : (bypassIds p).isEmpty
  · right
    unfold optimize_graph
    simp [h]
  · left
    have hn := optimize_graph_nodes p (by simpa using h)
    unfold bypassIds
    rw [hn]
    rw [List.map_eq_nil_iff]
    rw [List.filter_eq_nil_iff]
    intro e he hmatch
    rw [mem_foldl_derase] at he
    exact he.2 (List.mem_map_of_mem _ (List.mem_filter.mpr ⟨he.1, hmatch⟩))

/-- Claim C3: the bypass-node elimination pass is idempotent — for every graph
store state, running `optimize_graph` twice leaves exactly the same node map
and connection list (indeed the same processor state) as running it once:
the first run deletes every bypass node, so the second finds none and returns
the state unchanged. -/
theorem c3_optimize_graph_idempotent (p : Proc) :
    optimize_graph (optimize_graph p) = optimize_graph p := by
  rcases bypassIds_optimize p with h | h
  · conv_lhs => rw [optimize_graph]
    simp [h]
  · simp only [h]

/-! ## The collapse-decision cascade (C2, C10) -/

/-- The collapse cascade, rules (1)-(6) in priority order with no root-scope
guard, the class-level rules (4)-(5) matching the name under which the source
attempts the class-level match: the whole text after the `class_` prefix
(the amended reading established below). -/
def should_collapse_spec_priority (p : Proc) (cfg : EnvConfig) (s : String) : Bool :=
  let entry_name : Option String :=
    match p.context with
    | some c => c.entry_name
    | none => none
  let class_name : Option String :=
    if strStartsWith s "class_" && 6 < strLenChars s then some (strDropChars s 6) else none
  if cfg.force_collapse_list.contains s then true
  else if cfg.subgraph_whitelist.contains s then false
  else if (match entry_name with | some e => e ≠ "" && s == e | none => false) then false
  else if (match class_name with | some cn => cfg.force_collapse_list.contains cn | none => false) then true
  else if (match class_name with | some cn => cfg.subgraph_whitelist.contains cn | none => false) then false
  else cfg.max_subgraph_nodes < get_node_count p (some s)

/-- The owning class name of a scope as the claim words it: for a method
scope such as "class_A_m" the class segment "A" (the source's own
`describe_scope` splits the suffix at the first underscore the same way),
for a class scope such as "class_A" the class "A" itself. -/
def owning_class_name (s : String) : Option String :=
  if strStartsWith s "class_" && 6 < strLenChars s then
    let rest := strDropChars s 6
    if strContains rest "_" then some (splitOnFirstSub rest "_").1 else some rest
  else none

/-- The `should_collapse` cascade exactly as the claim words it: rules (1)-(6)
in priority order for every scope name (no root-scope guard), the class-level
rules (4)-(5) matching the scope's owning class name. -/
def should_collapse_claim_rules (p : Proc) (cfg : EnvConfig) (s : String) : Bool :=
  let entry_name : Option String :=
    match p.context with
    | some c => c.entry_name
    | none => none
  if cfg.force_collapse_list.contains s then true
  else if cfg.subgraph_whitelist.contains s then false
  else if (match entry_name with | some e => e ≠ "" && s == e | none => false) then false
  else if (match owning_class_name s with | some cn => cfg.force_collapse_list.contains cn | none => false) then true
  else if (match owning_class_name s with | some cn => cfg.subgraph_whitelist.contains cn | none => false) then false
  else cfg.max_subgraph_nodes < get_node_count p (some s)

/-- Claim C2, counterexample: two instances refute the claim as stated,
whose rules (1)-(6) are transcribed verbatim in `should_collapse_claim_rules`.
(i) The root scope "main" placed in the force-collapse set: rule (1) demands
collapse, yet the code expands — "main" short-circuits the whole cascade.
(ii) The method scope "class_A_m", whose owning class "A" is in the
force-collapse set with nothing else configured: rule (4) demands collapse,
yet the code expands — for a method scope it matches the class-level rules
against the whole suffix "A_m" after the `class_` prefix, never against the
owning class name "A" alone. -/
theorem c2_collapse_priority_counterexample :
    (should_collapse procInit { force_collapse_list := ["main"] } (some "main") = false ∧
     should_collapse_claim_rules procInit { force_collapse_list := ["main"] } "main" = true) ∧
    (should_collapse procInit { force_collapse_list := ["A"] } (some "class_A_m") = false ∧
     should_collapse_claim_rules procInit { force_collapse_list := ["A"] } "class_A_m" = true) := by
  decide

/-- Claim C2, amended: for every scope other than the guarded ones (empty and
the root "main", cf. C10), `should_collapse` computes exactly the strict
priority cascade (1) force-collapse exact, (2) whitelist exact, (3) the scope
equals the recorded entry-point name, (4) force-collapse on the text after
the scope's `class_` prefix, (5) whitelist on that same stripped text,
(6) node-count threshold; in particular for a scope present exactly in both
sets force-collapse wins, and an exact whitelist match beats a class-level
force-collapse match. -/
theorem c2_collapse_priority (p : Proc) (cfg : EnvConfig) (s : String)
    (h1 : s ≠ "") (h2 : s ≠ "main") :
    should_collapse p cfg (some s) = should_collapse_spec_priority p cfg s ∧
    (cfg.force_collapse_list.contains s = true → should_collapse p cfg (some s) = true) ∧
    (cfg.subgraph_whitelist.contains s = true → cfg.force_collapse_list.contains s = false →
      should_collapse p cfg (some s) = false) := by
  have e1 : (s == "") = false := by simpa using h1
  have e2 : (s == "main") = false := by simpa using h2
  have key : should_collapse p cfg (some s) = should_collapse_spec_priority p cfg s := by
    simp only [should_collapse, should_collapse_spec_priority, e1, e2]
    rfl
  refine ⟨key, ?_, ?_⟩
  · intro hf
    rw [key]
    simp only [should_collapse_spec_priority, hf]
    rfl
  · intro hw hf
    rw [key]
    simp only [should_collapse_spec_priority, hf, hw]
    rfl

theorem c2_collapse_priority_witness :
    (should_collapse procInit { force_collapse_list := ["A"], subgraph_whitelist := ["class_A"] } (some "class_A") =
      should_collapse_spec_priority procInit { force_collapse_list := ["A"], subgraph_whitelist := ["class_A"] } "class_A" ∧
    (({ force_collapse_list := ["A"], subgraph_whitelist := ["class_A"] } : EnvConfig).force_collapse_list.contains "class_A" = true →
      should_collapse procInit { force_collapse_list := ["A"], subgraph_whitelist := ["class_A"] } (some "class_A") = true) ∧
    (({ force_collapse_list := ["A"], subgraph_whitelist := ["class_A"] } : EnvConfig).subgraph_whitelist.contains "class_A" = true →
      ({ force_collapse_list := ["A"], subgraph_whitelist := ["class_A"] } : EnvConfig).force_collapse_list.contains "class_A" = false →
      should_collapse procInit { force_collapse_list := ["A"], subgraph_whitelist := ["class_A"] } (some "class_A") = false)) :=
  c2_collapse_priority procInit { force_collapse_list := ["A"], subgraph_whitelist := ["class_A"] }
    "class_A" (by decide) (by decide)

/-- Claim C10: `should_collapse` returns `False` for a missing scope, the
empty scope and the root scope "main", for every configuration — the root
guard takes precedence over all six priority rules, so "main" is never
collapsed even when it appears exactly in the force-collapse set. -/
theorem c10_root_scope_never_collapsed (p : Proc) (cfg : EnvConfig) :
    should_collapse p cfg none = false ∧
    should_collapse p cfg (some "") = false ∧
    should_collapse p cfg (some "main") = false := by
  refine ⟨rfl, ?_, ?_⟩ <;> simp [should_collapse]

/-! ## Concrete example programs for the claims -/

/-- `if x > 5: print('hi')` at top level (spec Example 1). -/
def exampleIf : List Stmt :=
  [ .ifStmt 1 "x > 5" [ .exprStmt 2 (.call (.name "print") [.strLit "hi"]) ] [] ]

def exampleMethodM : FuncDef := .mk 2 "m" ["self"] [ .assign 3 [.name "x"] (.other "1") ]

/-- `class A: def m(self): x = 1` then `a = A(); a.m(); a.m()` (spec Example 2). -/
def exampleTwoCalls : List Stmt :=
  [ .classDef 1 "A" [ .functionDef exampleMethodM ],
    .assign 4 [.name "a"] (.call (.name "A") []),
    .exprStmt 5 (.call (.attr (.name "a") "m") []),
    .exprStmt 6 (.call (.attr (.name "a") "m") []) ]

def exampleRecFn : FuncDef := .mk 1 "f" []
  [ .exprStmt 2 (.call (.name "f") []), .exprStmt 3 (.call (.name "f") []) ]

/-- `def f(): f(); f()` then a top-level call `f()`. -/
def exampleRecursion : List Stmt := [ .functionDef exampleRecFn, .exprStmt 4 (.call (.name "f") []) ]

def examplePassMethod : FuncDef := .mk 2 "m" ["self"] [ .passStmt 3 ]

/-- `class A: def m(self): pass` then `a = A(); a.unknown(); x = 1`
(spec Example 4). -/
def exampleUnknownMethod : List Stmt :=
  [ .classDef 1 "A" [ .functionDef examplePassMethod ],
    .assign 4 [.name "a"] (.call (.name "A") []),
    .exprStmt 5 (.call (.attr (.name "a") "unknown") []),
    .assign 6 [.name "x"] (.other "1") ]

def exampleDocMethod : FuncDef := .mk 2 "m" ["self"] [ .exprStmt 3 (.strLit "doc") ]

/-- `class A: def m(self): "doc"` then `a = A(); a.m(); b = 1`: the method
body is a lone docstring, so the method-entry node's only connection is the
bidirectional call edge. -/
def exampleDanglingCall : List Stmt :=
  [ .classDef 1 "A" [ .functionDef exampleDocMethod ],
    .assign 4 [.name "a"] (.call (.name "A") []),
    .exprStmt 5 (.call (.attr (.name "a") "m") []),
    .assign 6 [.name "b"] (.other "1") ]

/-! ## Claims C9 and C4 -/

/-- Claim C9: a single top-level `if` with no else whose body is one print
statement builds exactly the chain start → condition → print → merge → end,
the merge node receiving the condition's labeled False edge; exactly one
condition node is created and it has exactly two outgoing edges ("True" into
the print path, "False" into the merge node). -/
theorem c9_single_if_example :
    (process_code 200 exampleIf procInit).nodes =
      [("start1", "start1[Start]"), ("end2", "end2[End]"),
       ("if_cond3", "if_cond3\x7b\"if x &gt 5\"\x7d"),
       ("print4", "print4[\"print(`hi`)\"]"), ("merge5", "merge5\x7b\x7b \x7d\x7d")] ∧
    (process_code 200 exampleIf procInit).connections =
      ["    start1 --> if_cond3", "    if_cond3 -->|True| print4", "    print4 --> merge5",
       "    if_cond3 -->|False| merge5", "    merge5 --> end2"] ∧
    ((process_code 200 exampleIf procInit).nodes.filter
      (fun e => strStartsWith e.1 "if_cond")).length = 1 ∧
    ((process_code 200 exampleIf procInit).connections.filter
      (fun c => strStartsWith c "    if_cond3 ")).length = 2 := by
  decide

/-- Claim C4 is violated by the code (code bug): after the full
post-processing pipeline on `exampleDanglingCall` (no collapse, default
settings, pruning on), the rendered connection list still contains the
bidirectional edge `method_call5 <-->|Call and Return| method_m6` while
`method_m6` has been pruned from the node map — a dangling endpoint.  The
cause is the pruning pass's connection pattern, which unlike the optimizer's
and redirecter's patterns lacks the `(<)?` group and therefore fails to parse
bidirectional edges, so their endpoints are never marked as referenced. -/
theorem c4_dangling_edge_after_pipeline :
    ((post_process (process_code 200 exampleDanglingCall procInit) {} {}).1.connections.contains
       "    method_call5 <-->|Call and Return| method_m6") = true ∧
    dcontains (post_process (process_code 200 exampleDanglingCall procInit) {} {}).1.nodes
       "method_m6" = false ∧
    (post_process (process_code 200 exampleDanglingCall procInit) {} {}).2.collapsed_subgraphs.isEmpty = true ∧
    parse_connection_nb "    method_call5 <-->|Call and Return| method_m6" = none ∧
    parse_connection "    method_call5 <-->|Call and Return| method_m6" =
      some ("method_call5", true, some "Call and Return", "method_m6") := by
  decide

/-! ## Shared helper lemmas -/

theorem strAppend_assoc (a b c : String) : a ++ b ++ c = a ++ (b ++ c) :=
  String.append_assoc a b c

theorem generate_id_variable_types (p : Proc) (x : String) :
    (generate_id p x).2.variable_types = p.variable_types := rfl

theorem generate_id_class_defs (p : Proc) (x : String) :
    (generate_id p x).2.class_defs = p.class_defs := rfl

theorem generate_id_show_classes (p : Proc) (x : String) :
    (generate_id p x).2.show_classes = p.show_classes := rfl

theorem add_node_variable_types (p : Proc) (i t : String) (s : String × String) (sc : Option String) :
    (add_node p i t s sc).2.variable_types = p.variable_types := by
  unfold add_node; split <;> rfl

theorem add_node_class_defs (p : Proc) (i t : String) (s : String × String) (sc : Option String) :
    (add_node p i t s sc).2.class_defs = p.class_defs := by
  unfold add_node; split <;> rfl

theorem add_node_show_classes (p : Proc) (i t : String) (s : String × String) (sc : Option String) :
    (add_node p i t s sc).2.show_classes = p.show_classes := by
  unfold add_node; split <;> rfl

theorem add_connection_variable_types (p : Proc) (a b l : String) (bi : Bool) :
    (add_connection p a b l bi).variable_types = p.variable_types := rfl

theorem add_connection_class_defs (p : Proc) (a b l : String) (bi : Bool) :
    (add_connection p a b l bi).class_defs = p.class_defs := rfl

theorem add_connection_show_classes (p : Proc) (a b l : String) (bi : Bool) :
    (add_connection p a b l bi).show_classes = p.show_classes := rfl

theorem dkeys_dinsert_of_contains {α : Type} {d : List (String × α)} {k : String} {v : α}
    (h : dcontains d k = true) : dkeys (dinsert d k v) = dkeys d := by
  unfold dinsert
  rw [if_pos h]
  unfold dkeys
  rw [List.map_map]
  apply List.map_congr_left
  intro e _
  by_cases hk : e.1 = k
  · simp [Function.comp_apply, hk]
  · simp [Function.comp_apply, hk]

theorem dget_map_keyupdate {α : Type} (d : List (String × α)) (k k' : String) (v : α) (h : k' ≠ k) :
    dget (d.map (fun e => if e.1 == k then (k, v) else e)) k' = dget d k' := by
  induction d with
  | nil => rfl
  | cons e t ih =>
    rcases e with ⟨ek, ev⟩
    rw [List.map_cons]
    simp only [show ((ek, ev).1) = ek from rfl]
    cases hbe : ek == k with
    | false =>
      rw [if_neg (by simp [hbe])]
      simp only [dget]
      rw [ih]
    | true =>
      rw [if_pos rfl]
      have hek : ek = k := by simpa using hbe
      subst hek
      have hc : ¬((ek == k') = true) := by simpa using (Ne.symm h)
      simp only [dget, if_neg hc]
      exact ih

theorem dget_append_singleton_ne {α : Type} (d : List (String × α)) (k k' : String) (v : α)
    (h : k' ≠ k) : dget (d ++ [(k, v)]) k' = dget d k' := by
  induction d with
  | nil => simp [dget, Ne.symm h]
  | cons e t ih =>
    rcases e with ⟨ek, ev⟩
    by_cases he : ek = k'
    · simp [dget, he]
    · simp [dget, he, ih]

theorem dget_dinsert_ne {α : Type} (d : List (String × α)) (k k' : String) (v : α) (h : k' ≠ k) :
    dget (dinsert d k v) k' = dget d k' := by
  unfold dinsert
  split
  · exact dget_map_keyupdate d k k' v h
  · exact dget_append_singleton_ne d k k' v h

/-! ## Claim C5: method-subgraph caching -/

/-- Claim C5: a (class, method) pair's body is walked and its subgraph nodes
are created at most once per build.  On a cache hit `_create_method_subgraph`
creates no node, bumps no id counter, and appends exactly one call edge —
bidirectional "Call and Return" in default mode, one-way "Call" in
sequential-flow mode; and on the two-call-site example the build yields
exactly one method-entry node, one copy of the body, and two such call
edges. -/
theorem c5_method_subgraph_cached :
    (∀ fuel (p : Proc) cn mn (fd : FuncDef) callId exId,
      dget p.method_subgraphs (cn ++ "." ++ mn) = some exId →
      (run (fuel + 1) (.cCreateMS cn mn fd callId) p).2.nodes = p.nodes ∧
      (run (fuel + 1) (.cCreateMS cn mn fd callId) p).2.node_counter = p.node_counter ∧
      (run (fuel + 1) (.cCreateMS cn mn fd callId) p).2.connections =
        p.connections ++ [if p.sequential_flow = true then "    " ++ callId ++ " -->|Call| " ++ exId
                          else "    " ++ callId ++ " <-->|Call and Return| " ++ exId]) ∧
    ((process_code 200 exampleTwoCalls procInit).nodes.filter
       (fun e => strContains e.2 "Method: m(")).length = 1 ∧
    ((process_code 200 exampleTwoCalls procInit).nodes.filter
       (fun e => strContains e.2 "x = 1")).length = 1 ∧
    ((process_code 200 exampleTwoCalls procInit).connections.filter
       (fun c => strContains c "|Call and Return|")).length = 2 ∧
    ((process_code 200 exampleTwoCalls { procInit with sequential_flow := true }).nodes.filter
       (fun e => strContains e.2 "Method: m(")).length = 1 ∧
    ((process_code 200 exampleTwoCalls { procInit with sequential_flow := true }).nodes.filter
       (fun e => strContains e.2 "x = 1")).length = 1 ∧
    ((process_code 200 exampleTwoCalls { procInit with sequential_flow := true }).connections.filter
       (fun c => strContains c "|Call|")).length = 2 := by
  constructor
  · intro fuel p cn mn fd callId exId hhit
    by_cases hs : p.sequential_flow
    · have ha : ∀ a b, add_connection p a b "Call" false =
          { p with connections := p.connections ++ ["    " ++ a ++ " -->|" ++ "Call" ++ "| " ++ b] } := by
        intro a b
        simp [add_connection, hs]
      simp only [run, runStep, hhit, hs, ha]
      refine ⟨?_, ?_, ?_⟩ <;> (repeat' split) <;> first | rfl | simp_all [strAppend_assoc]
    · have hs2 : p.sequential_flow = false := by simpa using hs
      have hb : ∀ a b, add_connection p a b "Call and Return" true =
          { p with connections := p.connections ++ ["    " ++ a ++ " <-->|" ++ "Call and Return" ++ "| " ++ b] } := by
        intro a b
        simp [add_connection, hs2]
      simp only [run, runStep, hhit, hs2, hb]
      refine ⟨?_, ?_, ?_⟩ <;> (repeat' split) <;> first | rfl | simp_all [strAppend_assoc]
  · decide

def c5wProc : Proc := { procInit with method_subgraphs := [("A.m", "method_m6")] }

theorem c5_method_subgraph_cached_witness :
    (run 1 (.cCreateMS "A" "m" exampleMethodM "method_call8") c5wProc).2.nodes = c5wProc.nodes ∧
    (run 1 (.cCreateMS "A" "m" exampleMethodM "method_call8") c5wProc).2.node_counter = c5wProc.node_counter ∧
    (run 1 (.cCreateMS "A" "m" exampleMethodM "method_call8") c5wProc).2.connections =
      c5wProc.connections ++
        [if c5wProc.sequential_flow = true then "    " ++ "method_call8" ++ " -->|Call| " ++ "method_m6"
         else "    " ++ "method_call8" ++ " <-->|Call and Return| " ++ "method_m6"] :=
  c5_method_subgraph_cached.1 0 c5wProc "A" "m" exampleMethodM "method_call8" "method_m6" (by decide)

/-! ## Dict update lemmas and Claims C6, C7, C8 -/

theorem dget_map_keyupdate_self {α : Type} (d : List (String × α)) (k : String) (v : α)
    (h : dcontains d k = true) : dget (d.map (fun e => if e.1 == k then (k, v) else e)) k = some v := by
  induction d with
  | nil => simp [dcontains] at h
  | cons e t ih =>
    rcases e with ⟨ek, ev⟩
    rw [List.map_cons]
    simp only [show ((ek, ev).1) = ek from rfl]
    cases hbe : ek == k with
    | false =>
      rw [if_neg (by simp [hbe])]
      have h2 := h
      rw [show dcontains ((ek, ev) :: t) k = (ek == k || dcontains t k) from rfl, hbe,
        Bool.false_or] at h2
      simp only [dget, if_neg (by simp [hbe] : ¬((ek == k) = true))]
      exact ih h2
    | true =>
      rw [if_pos rfl]
      simp only [dget]
      rw [if_pos (by simp)]

theorem dget_append_singleton_self {α : Type} (d : List (String × α)) (k : String) (v : α) :
    dcontains d k = false → dget (d ++ [(k, v)]) k = some v := by
  induction d with
  | nil => intro _; simp [dget]
  | cons e t ih =>
    intro h
    rcases e with ⟨ek, ev⟩
    have h2 := h
    rw [show dcontains ((ek, ev) :: t) k = (ek == k || dcontains t k) from rfl,
      Bool.or_eq_false_iff] at h2
    simp only [List.cons_append, dget, if_neg (by simp [h2.1] : ¬((ek == k) = true))]
    exact ih h2.2

theorem dget_dinsert_self {α : Type} (d : List (String × α)) (k : String) (v : α) :
    dget (dinsert d k v) k = some v := by
  unfold dinsert
  cases h : dcontains d k with
  | true => rw [if_pos rfl]; exact dget_map_keyupdate_self d k v h
  | false => rw [if_neg (by simp)]; exact dget_append_singleton_self d k v h

/-- Claim C6: for a direct self-recursive call (the callee name equals the
current scope) the builder never re-enters the walk of the function body: the
handler only creates one "Recursive Call" node, links it from the current
node, draws one "Recursion"-labeled edge back to the function's recorded
first node and records the call.  On the two-site example `def f(): f(); f()`
with a top-level call, the body is laid out exactly once (one "Call: f()"
node), each call site gets exactly one Recursion edge, and the full
connection list shows no second copy of the body. -/
theorem c6_recursion_guard :
    (∀ fuel (p : Proc) (ln : Nat) (fn : String) (args : List PyExpr) (cur scope : String),
      EXIT_FUNCTIONS.contains fn = false →
      fn ≠ "print" →
      dcontains p.class_defs fn = false →
      p.show_functions = true →
      dcontains p.function_defs fn = true →
      is_nesting_limit_exceeded p = false →
      is_recursive_call fn scope = true →
      run (fuel + 1) (.cExpr (.exprStmt ln (.call (.name fn) args)) cur scope) p =
        (let g := generate_id p ("recursive_call_" ++ fn)
         let call_id := g.1
         let text := maybe_highlight p (.exprStmt ln (.call (.name fn) args))
           ("Recursive Call: " ++ get_node_text (.exprStmt ln (.call (.name fn) args)))
         let p1 := (add_node g.2 call_id text SHAPE_function_call (some scope)).2
         let p1 := add_connection p1 cur call_id "" false
         match get_function_start_node p1 fn with
         | some fstart =>
           let p2 := add_connection p1 call_id fstart "Recursion" false
           (.next call_id, record_recursive_call p2 fn call_id)
         | none => (.next call_id, p1))) ∧
    (process_code 200 exampleRecursion procInit).connections =
      ["    start1 --> call_f3", "    call_f3 --> recursive_call_f5",
       "    recursive_call_f5 -->|Recursion| call_f3",
       "    recursive_call_f5 --> recursive_call_f6",
       "    recursive_call_f6 -->|Recursion| call_f3",
       "    recursive_call_f6 --> end_call4", "    end_call4 --> end2"] ∧
    ((process_code 200 exampleRecursion procInit).nodes.filter
       (fun e => strContains e.2 "Recursive Call")).length = 2 ∧
    ((process_code 200 exampleRecursion procInit).nodes.filter
       (fun e => strContains e.2 "[\"Call: f()")).length = 1 ∧
    (process_code 200 exampleRecursion procInit).connections.filter
       (fun c => strContains c "|Recursion|") =
      ["    recursive_call_f5 -->|Recursion| call_f3",
       "    recursive_call_f6 -->|Recursion| call_f3"] ∧
    dget (process_code 200 exampleRecursion procInit).function_start_nodes "f" = some "call_f3" := by
  constructor
  · intro fuel p ln fn args cur scope h1 h2 h3 h4 h5 h6 h7
    have h2x : ((some fn : Option String) == some "print") = false := by simpa using h2
    simp only [run, runStep, Option.getD_some, h1, h2x, h3, h4, h5, h6, h7]
    rfl
  · decide

def c6wProc : Proc := { procInit with
  function_defs := [("f", exampleRecFn)], function_start_nodes := [("f", "call_f3")] }

theorem c6_recursion_guard_witness :
    run (0 + 1) (.cExpr (.exprStmt 2 (.call (.name "f") [])) "call_f3" "f") c6wProc =
      (let g := generate_id c6wProc ("recursive_call_" ++ "f")
       let call_id := g.1
       let text := maybe_highlight c6wProc (.exprStmt 2 (.call (.name "f") []))
         ("Recursive Call: " ++ get_node_text (.exprStmt 2 (.call (.name "f") [])))
       let p1 := (add_node g.2 call_id text SHAPE_function_call (some "f")).2
       let p1 := add_connection p1 "call_f3" call_id "" false
       match get_function_start_node p1 "f" with
       | some fstart =>
         let p2 := add_connection p1 call_id fstart "Recursion" false
         (.next call_id, record_recursive_call p2 "f" call_id)
       | none => (.next call_id, p1)) :=
  c6_recursion_guard.1 0 c6wProc 2 "f" [] "call_f3" "f" (by decide) (by decide) (by decide)
    (by decide) (by decide) (by decide) (by decide)

/-- Claim C7: for a method call whose receiver resolves (via variable_types)
to a known class that lacks the named method (and the name is not a recorded
property of that class), the handler emits a distinct error node after the
call node, connects it from the call node and returns the error node id, so
processing continues with the next statement; on the concrete example the
error node feeds straight into the following assignment and the build
completes normally. -/
theorem c7_unknown_method_error :
    (∀ fuel (p : Proc) (ln : Nat) (obj mn C : String) (ci : ClassInfo)
       (args : List PyExpr) (cur scope : String),
      p.show_classes = true →
      dget p.variable_types obj = some C →
      dget p.class_defs C = some ci →
      dget ci.methods mn = none →
      is_class_property p C mn = false →
      run (fuel + 1) (.cMethodCall (.exprStmt ln (.call (.attr (.name obj) mn) args)) cur scope mn none) p =
        (let g := generate_id p "method_call"
         let mc := g.1
         let p1 := (add_node g.2 mc ("Call: " ++ get_node_text (.exprStmt ln (.call (.attr (.name obj) mn) args))) SHAPE_function_call (some scope)).2
         let p1 := add_connection p1 cur mc "" false
         let g2 := generate_id p1 "error"
         let errId := g2.1
         let p2 := (add_node g2.2 errId ("‚ùå Method \x27" ++ mn ++ "\x27 not found in " ++ C) SHAPE_exception (some scope)).2
         (.next errId, add_connection p2 mc errId "" false))) ∧
    dget (process_code 200 exampleUnknownMethod procInit).nodes "error6" =
      some "error6[[\"‚ùå Method \x27unknown\x27 not found in A\"]]" ∧
    (process_code 200 exampleUnknownMethod procInit).connections =
      ["    start1 --> assign4", "    assign4 --> method_call5", "    method_call5 --> error6",
       "    error6 --> assign7", "    assign7 --> end2"] := by
  constructor
  · intro fuel p ln obj mn C ci args cur scope hsc hvt hcd hm _hprop
    simp only [run, runStep, resolve_object_type, add_node_variable_types, add_node_class_defs,
      add_node_show_classes, add_connection_variable_types, add_connection_class_defs,
      add_connection_show_classes, generate_id_variable_types, generate_id_class_defs,
      generate_id_show_classes, hsc, hvt, hcd, hm]
    rfl
  · decide

def c7ci : ClassInfo := { body := [.functionDef examplePassMethod], methods := [("m", examplePassMethod)] }

def c7wProc : Proc := { procInit with
  variable_types := [("a", "A")], class_defs := [("A", c7ci)] }

theorem c7_unknown_method_error_witness :
    run (0 + 1) (.cMethodCall (.exprStmt 5 (.call (.attr (.name "a") "unknown") [])) "start1" "main" "unknown" none) c7wProc =
      (let g := generate_id c7wProc "method_call"
       let mc := g.1
       let p1 := (add_node g.2 mc ("Call: " ++ get_node_text (.exprStmt 5 (.call (.attr (.name "a") "unknown") []))) SHAPE_function_call (some "main")).2
       let p1 := add_connection p1 "start1" mc "" false
       let g2 := generate_id p1 "error"
       let errId := g2.1
       let p2 := (add_node g2.2 errId ("‚ùå Method \x27" ++ "unknown" ++ "\x27 not found in " ++ "A") SHAPE_exception (some "main")).2
       (.next errId, add_connection p2 mc errId "" false)) :=
  c7_unknown_method_error.1 0 c7wProc 5 "a" "unknown" "A" c7ci [] "start1" "main"
    rfl rfl rfl rfl (by decide)

/-- Claim C8: with merge_common_nodes enabled, when a consolidable simple
statement (print-like call, plain non-call assignment, or augmented
assignment without a call) follows a consolidable predecessor in the same
scope, the handler returns the previous node id and only rewrites that
node's definition (appending the new statement's text after a literal
backslash-n); the connection list, the key set of the node store, and every
other node's definition are unchanged by the consolidation step. -/
theorem c8_consolidation_frame :
    (∀ fuel (p : Proc) (st : Stmt) (cur scope : String),
      p.show_prints = true →
      should_consolidate_with_previous p cur scope = true →
      run (fuel + 1) (.cPrint st cur scope) p = (.next cur, consolidate_with_previous p st cur)) ∧
    (∀ fuel (p : Proc) (ln : Nat) (targets : List PyExpr) (v : PyExpr) (cur scope : String),
      (targets.length == 1 && (match v with | .call _ _ => true | _ => false)) = false →
      should_consolidate_with_previous (track_attribute_assignment p (.assign ln targets v) scope) cur scope = true →
      run (fuel + 1) (.cAssign (.assign ln targets v) cur scope) p =
        (.next cur, consolidate_with_previous (track_attribute_assignment p (.assign ln targets v) scope) (.assign ln targets v) cur)) ∧
    (∀ fuel (p : Proc) (ln : Nat) (t : PyExpr) (op : String) (v : PyExpr) (cur scope : String),
      (match v with | .call _ _ => true | _ => false) = false →
      should_consolidate_with_previous p cur scope = true →
      run (fuel + 1) (.cAug (.augAssign ln t op v) cur scope) p =
        (.next cur, consolidate_with_previous p (.augAssign ln t op v) cur)) ∧
    (∀ (p : Proc) (st : Stmt) (prev : String),
      dcontains p.nodes prev = true →
      (consolidate_with_previous p st prev).connections = p.connections ∧
      dkeys (consolidate_with_previous p st prev).nodes = dkeys p.nodes ∧
      (∀ k, k ≠ prev → dget (consolidate_with_previous p st prev).nodes k = dget p.nodes k) ∧
      dget (consolidate_with_previous p st prev).nodes prev =
        some (prev ++ "[\"" ++ (extract_text_from_node ((dget p.nodes prev).getD "") ++ "\\n" ++
          get_node_text st) ++ "\"]")) := by
  refine ⟨?_, ?_, ?_, ?_⟩
  · intro fuel p st cur scope hp hsc
    simp only [run, runStep, hp, hsc]
    rfl
  · intro fuel p ln targets v cur scope hnc hsc
    cases v with
    | call f as =>
      have ht : (targets.length == 1) = false := by simpa using hnc
      simp only [run, runStep, ht, Bool.false_and, hsc]
      rfl
    | name x => simp only [run, runStep, Bool.and_false, hsc]; rfl
    | strLit sl => simp only [run, runStep, Bool.and_false, hsc]; rfl
    | attr a b => simp only [run, runStep, Bool.and_false, hsc]; rfl
    | other o => simp only [run, runStep, Bool.and_false, hsc]; rfl
  · intro fuel p ln t op v cur scope _hnc hsc
    simp only [run, runStep, hsc]
    rfl
  · intro p st prev hmem
    refine ⟨rfl, dkeys_dinsert_of_contains hmem, ?_, ?_⟩
    · intro k hk
      exact dget_dinsert_ne _ _ _ _ hk
    · exact dget_dinsert_self _ _ _

def c8wProc : Proc := { procInit with
  nodes := [("print3", "print3[\"print(`a`)\"]"), ("assign4", "assign4[\"x = 1\"]")],
  node_scopes := [("print3", some "main"), ("assign4", some "main")],
  connections := ["    start1 --> print3"] }

theorem c8_consolidation_frame_witness :
    (run (0 + 1) (.cPrint (.exprStmt 7 (.call (.name "print") [.name "b"])) "print3" "main") c8wProc =
      (.next "print3", consolidate_with_previous c8wProc (.exprStmt 7 (.call (.name "print") [.name "b"])) "print3")) ∧
    (consolidate_with_previous c8wProc (.exprStmt 7 (.call (.name "print") [.name "b"])) "print3").connections = c8wProc.connections ∧
    dget (consolidate_with_previous c8wProc (.exprStmt 7 (.call (.name "print") [.name "b"])) "print3").nodes "assign4" =
      dget c8wProc.nodes "assign4" :=
  ⟨c8_consolidation_frame.1 0 c8wProc (.exprStmt 7 (.call (.name "print") [.name "b"])) "print3" "main" rfl (by decide),
   (c8_consolidation_frame.2.2.2 c8wProc (.exprStmt 7 (.call (.name "print") [.name "b"])) "print3" (by decide)).1,
   (c8_consolidation_frame.2.2.2 c8wProc (.exprStmt 7 (.call (.name "print") [.name "b"])) "print3" (by decide)).2.2.1 "assign4" (by decide)⟩

/-! ## Resource bounds of the walker -/

theorem depth_generate_id (p : Proc) (x : String) :
    (generate_id p x).2.current_nesting_depth = p.current_nesting_depth := rfl

theorem depth_add_node (p : Proc) (i t : String) (s : String × String) (sc : Option String) :
    (add_node p i t s sc).2.current_nesting_depth = p.current_nesting_depth := by
  unfold add_node; split <;> rfl

theorem depth_add_connection (p : Proc) (a b l : String) (bi : Bool) :
    (add_connection p a b l bi).current_nesting_depth = p.current_nesting_depth := rfl

theorem depth_handle_max (p : Proc) (cur : String) :
    (handle_max_nodes_exceeded p cur).current_nesting_depth = p.current_nesting_depth := by
  unfold handle_max_nodes_exceeded; (repeat' split) <;> rfl

theorem depth_setdefault (p : Proc) (scope child : String) :
    (setdefault_add_child p scope child).current_nesting_depth = p.current_nesting_depth := rfl

theorem depth_record_recursive (p : Proc) (f c : String) :
    (record_recursive_call p f c).current_nesting_depth = p.current_nesting_depth := rfl

theorem depth_track_attr (p : Proc) (st : Stmt) (scope : String) :
    (track_attribute_assignment p st scope).current_nesting_depth = p.current_nesting_depth := by
  unfold track_attribute_assignment; (repeat' split) <;> rfl

theorem depth_track_init (p : Proc) (cn : String) (args : List PyExpr) (scope : String) :
    (track_init_parameter_types p cn args scope).current_nesting_depth = p.current_nesting_depth := by
  unfold track_init_parameter_types; (repeat' split) <;> rfl

theorem depth_consolidate (p : Proc) (st : Stmt) (prev : String) :
    (consolidate_with_previous p st prev).current_nesting_depth = p.current_nesting_depth := rfl

theorem depth_foldl_le {cname : String} {body : List Stmt} {q : Proc}
    (h : q.current_nesting_depth ≤ MAX_NESTING_DEPTH) :
    (body.foldl (fun p item =>
      match item with
      | .functionDef fd => { p with method_defs := dinsert p.method_defs (cname ++ "." ++ fd.name) fd }
      | _ => p) q).current_nesting_depth ≤ MAX_NESTING_DEPTH := by
  induction body generalizing q with
  | nil => exact h
  | cons it rest ih =>
    rw [List.foldl_cons]
    exact ih (by cases it <;> exact h)

theorem Nat_sub1_le {x : Nat} (h : x ≤ MAX_NESTING_DEPTH) : x - 1 ≤ MAX_NESTING_DEPTH :=
  le_trans (Nat.sub_le _ _) h

theorem ite_snd_depth {c : Prop} [Decidable c] {A B : HRes × Proc}
    (hA : c → A.2.current_nesting_depth ≤ MAX_NESTING_DEPTH)
    (hB : ¬c → B.2.current_nesting_depth ≤ MAX_NESTING_DEPTH) :
    (if c then A else B).2.current_nesting_depth ≤ MAX_NESTING_DEPTH := by
  by_cases hc : c
  · rw [if_pos hc]; exact hA hc
  · rw [if_neg hc]; exact hB hc

theorem ite_proc_depth {c : Prop} [Decidable c] {A B : Proc}
    (hA : c → A.current_nesting_depth ≤ MAX_NESTING_DEPTH)
    (hB : ¬c → B.current_nesting_depth ≤ MAX_NESTING_DEPTH) :
    (if c then A else B).current_nesting_depth ≤ MAX_NESTING_DEPTH := by
  by_cases hc : c
  · rw [if_pos hc]; exact hA hc
  · rw [if_neg hc]; exact hB hc

set_option maxHeartbeats 16000000 in
theorem depth_run : ∀ fuel c p, p.current_nesting_depth ≤ MAX_NESTING_DEPTH →
    (run fuel c p).2.current_nesting_depth ≤ MAX_NESTING_DEPTH := by
  intro fuel
  induction fuel with
  | zero => intro c p h; exact h
  | succ fuel ih =>
    intro c p h
    show (runStep (run fuel) c p).2.current_nesting_depth ≤ MAX_NESTING_DEPTH
    cases c with
    | pnl stmts cur scope lbl =>
      simp only [runStep]
      repeat'
        first
        | assumption
        | apply ih
        | apply Nat_sub1_le
        | apply ite_snd_depth
        | apply ite_proc_depth
        | apply depth_foldl_le
        | intro hh
        | simp only [depth_generate_id, depth_add_node, depth_add_connection, depth_handle_max,
            depth_setdefault, depth_record_recursive, depth_track_attr, depth_track_init,
            depth_consolidate]
        | split
      all_goals
        ((try simp only [is_nesting_limit_exceeded, decide_eq_true_eq, depth_generate_id,
            depth_add_node, depth_add_connection, depth_setdefault, depth_track_attr,
            depth_track_init] at *)
         omega)
    | pnlLoop stmts idx cur scope =>
      simp only [runStep]
      repeat'
        first
        | assumption
        | apply ih
        | apply Nat_sub1_le
        | apply ite_snd_depth
        | apply ite_proc_depth
        | apply depth_foldl_le
        | intro hh
        | simp only [depth_generate_id, depth_add_node, depth_add_connection, depth_handle_max,
            depth_setdefault, depth_record_recursive, depth_track_attr, depth_track_init,
            depth_consolidate]
        | split
      all_goals
        ((try simp only [is_nesting_limit_exceeded, decide_eq_true_eq, depth_generate_id,
            depth_add_node, depth_add_connection, depth_setdefault, depth_track_attr,
            depth_track_init] at *)
         omega)
    | hstmt st cur scope =>
      simp only [runStep]
      repeat'
        first
        | assumption
        | apply ih
        | apply Nat_sub1_le
        | apply ite_snd_depth
        | apply ite_proc_depth
        | apply depth_foldl_le
        | intro hh
        | simp only [depth_generate_id, depth_add_node, depth_add_connection, depth_handle_max,
            depth_setdefault, depth_record_recursive, depth_track_attr, depth_track_init,
            depth_consolidate]
        | split
      all_goals
        ((try simp only [is_nesting_limit_exceeded, decide_eq_true_eq, depth_generate_id,
            depth_add_node, depth_add_connection, depth_setdefault, depth_track_attr,
            depth_track_init] at *)
         omega)
    | cIf st cur scope =>
      simp only [runStep]
      repeat'
        first
        | assumption
        | apply ih
        | apply Nat_sub1_le
        | apply ite_snd_depth
        | apply ite_proc_depth
        | apply depth_foldl_le
        | intro hh
        | simp only [depth_generate_id, depth_add_node, depth_add_connection, depth_handle_max,
            depth_setdefault, depth_record_recursive, depth_track_attr, depth_track_init,
            depth_consolidate]
        | split
      all_goals
        ((try simp only [is_nesting_limit_exceeded, decide_eq_true_eq, depth_generate_id,
            depth_add_node, depth_add_connection, depth_setdefault, depth_track_attr,
            depth_track_init] at *)
         omega)
    | cExpr st cur scope =>
      cases st with
      | exprStmt ln v =>
        cases v with
        | call f args =>
          cases f with
          | attr recv aname =>
            cases recv <;>
            (simp only [runStep]
             repeat'
               first
               | assumption
               | apply ih
               | apply Nat_sub1_le
               | apply ite_snd_depth
               | apply ite_proc_depth
               | apply depth_foldl_le
               | intro hh
               | simp only [depth_generate_id, depth_add_node, depth_add_connection, depth_handle_max,
                   depth_setdefault, depth_record_recursive, depth_track_attr, depth_track_init,
                   depth_consolidate]
               | split
             all_goals
               ((try simp only [is_nesting_limit_exceeded, decide_eq_true_eq, depth_generate_id,
                   depth_add_node, depth_add_connection, depth_setdefault, depth_track_attr,
                   depth_track_init] at *)
                omega))
          | name fn =>
            simp only [runStep]
            repeat'
              first
              | assumption
              | apply ih
              | apply Nat_sub1_le
              | apply ite_snd_depth
              | apply ite_proc_depth
              | apply depth_foldl_le
              | intro hh
              | simp only [depth_generate_id, depth_add_node, depth_add_connection, depth_handle_max,
                  depth_setdefault, depth_record_recursive, depth_track_attr, depth_track_init,
                  depth_consolidate]
              | split
            all_goals
              ((try simp only [is_nesting_limit_exceeded, decide_eq_true_eq, depth_generate_id,
                  depth_add_node, depth_add_connection, depth_setdefault, depth_track_attr,
                  depth_track_init] at *)
               omega)
          | strLit sl =>
            simp only [runStep]
            repeat'
              first
              | assumption
              | apply ih
              | apply Nat_sub1_le
              | apply ite_snd_depth
              | apply ite_proc_depth
              | apply depth_foldl_le
              | intro hh
              | simp only [depth_generate_id, depth_add_node, depth_add_connection, depth_handle_max,
                  depth_setdefault, depth_record_recursive, depth_track_attr, depth_track_init,
                  depth_consolidate]
              | split
            all_goals
              ((try simp only [is_nesting_limit_exceeded, decide_eq_true_eq, depth_generate_id,
                  depth_add_node, depth_add_connection, depth_setdefault, depth_track_attr,
                  depth_track_init] at *)
               omega)
          | call f2 a2 =>
            simp only [runStep]
            repeat'
              first
              | assumption
              | apply ih
              | apply Nat_sub1_le
              | apply ite_snd_depth
              | apply ite_proc_depth
              | apply depth_foldl_le
              | intro hh
              | simp only [depth_generate_id, depth_add_node, depth_add_connection, depth_handle_max,
                  depth_setdefault, depth_record_recursive, depth_track_attr, depth_track_init,
                  depth_consolidate]
              | split
            all_goals
              ((try simp only [is_nesting_limit_exceeded, decide_eq_true_eq, depth_generate_id,
                  depth_add_node, depth_add_connection, depth_setdefault, depth_track_attr,
                  depth_track_init] at *)
               omega)
          | other o =>
            simp only [runStep]
            repeat'
              first
              | assumption
              | apply ih
              | apply Nat_sub1_le
              | apply ite_snd_depth
              | apply ite_proc_depth
              | apply depth_foldl_le
              | intro hh
              | simp only [depth_generate_id, depth_add_node, depth_add_connection, depth_handle_max,
                  depth_setdefault, depth_record_recursive, depth_track_attr, depth_track_init,
                  depth_consolidate]
              | split
            all_goals
              ((try simp only [is_nesting_limit_exceeded, decide_eq_true_eq, depth_generate_id,
                  depth_add_node, depth_add_connection, depth_setdefault, depth_track_attr,
                  depth_track_init] at *)
               omega)
        | name x =>
          simp only [runStep]
          repeat'
            first
            | assumption
            | apply ih
            | apply Nat_sub1_le
            | apply ite_snd_depth
            | apply ite_proc_depth
            | apply depth_foldl_le
            | intro hh
            | simp only [depth_generate_id, depth_add_node, depth_add_connection, depth_handle_max,
                depth_setdefault, depth_record_recursive, depth_track_attr, depth_track_init,
                depth_consolidate]
            | split
          all_goals
            ((try simp only [is_nesting_limit_exceeded, decide_eq_true_eq, depth_generate_id,
                depth_add_node, depth_add_connection, depth_setdefault, depth_track_attr,
                depth_track_init] at *)
             omega)
        | strLit sl =>
          simp only [runStep]
          repeat'
            first
            | assumption
            | apply ih
            | apply Nat_sub1_le
            | apply ite_snd_depth
            | apply ite_proc_depth
            | apply depth_foldl_le
            | intro hh
            | simp only [depth_generate_id, depth_add_node, depth_add_connection, depth_handle_max,
                depth_setdefault, depth_record_recursive, depth_track_attr, depth_track_init,
                depth_consolidate]
            | split
          all_goals
            ((try simp only [is_nesting_limit_exceeded, decide_eq_true_eq, depth_generate_id,
                depth_add_node, depth_add_connection, depth_setdefault, depth_track_attr,
                depth_track_init] at *)
             omega)
        | attr a b =>
          simp only [runStep]
          repeat'
            first
            | assumption
            | apply ih
            | apply Nat_sub1_le
            | apply ite_snd_depth
            | apply ite_proc_depth
            | apply depth_foldl_le
            | intro hh
            | simp only [depth_generate_id, depth_add_node, depth_add_connection, depth_handle_max,
                depth_setdefault, depth_record_recursive, depth_track_attr, depth_track_init,
                depth_consolidate]
            | split
          all_goals
            ((try simp only [is_nesting_limit_exceeded, decide_eq_true_eq, depth_generate_id,
                depth_add_node, depth_add_connection, depth_setdefault, depth_track_attr,
                depth_track_init] at *)
             omega)
        | other o =>
          simp only [runStep]
          repeat'
            first
            | assumption
            | apply ih
            | apply Nat_sub1_le
            | apply ite_snd_depth
            | apply ite_proc_depth
            | apply depth_foldl_le
            | intro hh
            | simp only [depth_generate_id, depth_add_node, depth_add_connection, depth_handle_max,
                depth_setdefault, depth_record_recursive, depth_track_attr, depth_track_init,
                depth_consolidate]
            | split
          all_goals
            ((try simp only [is_nesting_limit_exceeded, decide_eq_true_eq, depth_generate_id,
                depth_add_node, depth_add_connection, depth_setdefault, depth_track_attr,
                depth_track_init] at *)
             omega)
      | ifStmt a b c d =>
        simp only [runStep]
        repeat'
          first
          | assumption
          | apply ih
          | apply Nat_sub1_le
          | apply ite_snd_depth
          | apply ite_proc_depth
          | apply depth_foldl_le
          | intro hh
          | simp only [depth_generate_id, depth_add_node, depth_add_connection, depth_handle_max,
              depth_setdefault, depth_record_recursive, depth_track_attr, depth_track_init,
              depth_consolidate]
          | split
        all_goals
          ((try simp only [is_nesting_limit_exceeded, decide_eq_true_eq, depth_generate_id,
              depth_add_node, depth_add_connection, depth_setdefault, depth_track_attr,
              depth_track_init] at *)
           omega)
      | assign a b c =>
        simp only [runStep]
        repeat'
          first
          | assumption
          | apply ih
          | apply Nat_sub1_le
          | apply ite_snd_depth
          | apply ite_proc_depth
          | apply depth_foldl_le
          | intro hh
          | simp only [depth_generate_id, depth_add_node, depth_add_connection, depth_handle_max,
              depth_setdefault, depth_record_recursive, depth_track_attr, depth_track_init,
              depth_consolidate]
          | split
        all_goals
          ((try simp only [is_nesting_limit_exceeded, decide_eq_true_eq, depth_generate_id,
              depth_add_node, depth_add_connection, depth_setdefault, depth_track_attr,
              depth_track_init] at *)
           omega)
      | augAssign a b c d =>
        simp only [runStep]
        repeat'
          first
          | assumption
          | apply ih
          | apply Nat_sub1_le
          | apply ite_snd_depth
          | apply ite_proc_depth
          | apply depth_foldl_le
          | intro hh
          | simp only [depth_generate_id, depth_add_node, depth_add_connection, depth_handle_max,
              depth_setdefault, depth_record_recursive, depth_track_attr, depth_track_init,
              depth_consolidate]
          | split
        all_goals
          ((try simp only [is_nesting_limit_exceeded, decide_eq_true_eq, depth_generate_id,
              depth_add_node, depth_add_connection, depth_setdefault, depth_track_attr,
              depth_track_init] at *)
           omega)
      | passStmt a =>
        simp only [runStep]
        repeat'
          first
          | assumption
          | apply ih
          | apply Nat_sub1_le
          | apply ite_snd_depth
          | apply ite_proc_depth
          | apply depth_foldl_le
          | intro hh
          | simp only [depth_generate_id, depth_add_node, depth_add_connection, depth_handle_max,
              depth_setdefault, depth_record_recursive, depth_track_attr, depth_track_init,
              depth_consolidate]
          | split
        all_goals
          ((try simp only [is_nesting_limit_exceeded, decide_eq_true_eq, depth_generate_id,
              depth_add_node, depth_add_connection, depth_setdefault, depth_track_attr,
              depth_track_init] at *)
           omega)
      | functionDef a =>
        simp only [runStep]
        repeat'
          first
          | assumption
          | apply ih
          | apply Nat_sub1_le
          | apply ite_snd_depth
          | apply ite_proc_depth
          | apply depth_foldl_le
          | intro hh
          | simp only [depth_generate_id, depth_add_node, depth_add_connection, depth_handle_max,
              depth_setdefault, depth_record_recursive, depth_track_attr, depth_track_init,
              depth_consolidate]
          | split
        all_goals
          ((try simp only [is_nesting_limit_exceeded, decide_eq_true_eq, depth_generate_id,
              depth_add_node, depth_add_connection, depth_setdefault, depth_track_attr,
              depth_track_init] at *)
           omega)
      | classDef a b c =>
        simp only [runStep]
        repeat'
          first
          | assumption
          | apply ih
          | apply Nat_sub1_le
          | apply ite_snd_depth
          | apply ite_proc_depth
          | apply depth_foldl_le
          | intro hh
          | simp only [depth_generate_id, depth_add_node, depth_add_connection, depth_handle_max,
              depth_setdefault, depth_record_recursive, depth_track_attr, depth_track_init,
              depth_consolidate]
          | split
        all_goals
          ((try simp only [is_nesting_limit_exceeded, decide_eq_true_eq, depth_generate_id,
              depth_add_node, depth_add_connection, depth_setdefault, depth_track_attr,
              depth_track_init] at *)
           omega)
    | cPrint st cur scope =>
      simp only [runStep]
      repeat'
        first
        | assumption
        | apply ih
        | apply Nat_sub1_le
        | apply ite_snd_depth
        | apply ite_proc_depth
        | apply depth_foldl_le
        | intro hh
        | simp only [depth_generate_id, depth_add_node, depth_add_connection, depth_handle_max,
            depth_setdefault, depth_record_recursive, depth_track_attr, depth_track_init,
            depth_consolidate]
        | split
      all_goals
        ((try simp only [is_nesting_limit_exceeded, decide_eq_true_eq, depth_generate_id,
            depth_add_node, depth_add_connection, depth_setdefault, depth_track_attr,
            depth_track_init] at *)
         omega)
    | cPrintCalls st cur scope =>
      simp only [runStep]
      repeat'
        first
        | assumption
        | apply ih
        | apply Nat_sub1_le
        | apply ite_snd_depth
        | apply ite_proc_depth
        | apply depth_foldl_le
        | intro hh
        | simp only [depth_generate_id, depth_add_node, depth_add_connection, depth_handle_max,
            depth_setdefault, depth_record_recursive, depth_track_attr, depth_track_init,
            depth_consolidate]
        | split
      all_goals
        ((try simp only [is_nesting_limit_exceeded, decide_eq_true_eq, depth_generate_id,
            depth_add_node, depth_add_connection, depth_setdefault, depth_track_attr,
            depth_track_init] at *)
         omega)
    | cPrintLoop calls counter cur scope =>
      simp only [runStep]
      repeat'
        first
        | assumption
        | apply ih
        | apply Nat_sub1_le
        | apply ite_snd_depth
        | apply ite_proc_depth
        | apply depth_foldl_le
        | intro hh
        | simp only [depth_generate_id, depth_add_node, depth_add_connection, depth_handle_max,
            depth_setdefault, depth_record_recursive, depth_track_attr, depth_track_init,
            depth_consolidate]
        | split
      all_goals
        ((try simp only [is_nesting_limit_exceeded, decide_eq_true_eq, depth_generate_id,
            depth_add_node, depth_add_connection, depth_setdefault, depth_track_attr,
            depth_track_init] at *)
         omega)
    | cAssign st cur scope =>
      simp only [runStep]
      repeat'
        first
        | assumption
        | apply ih
        | apply Nat_sub1_le
        | apply ite_snd_depth
        | apply ite_proc_depth
        | apply depth_foldl_le
        | intro hh
        | simp only [depth_generate_id, depth_add_node, depth_add_connection, depth_handle_max,
            depth_setdefault, depth_record_recursive, depth_track_attr, depth_track_init,
            depth_consolidate]
        | split
      all_goals
        ((try simp only [is_nesting_limit_exceeded, decide_eq_true_eq, depth_generate_id,
            depth_add_node, depth_add_connection, depth_setdefault, depth_track_attr,
            depth_track_init] at *)
         omega)
    | cAug st cur scope =>
      simp only [runStep]
      repeat'
        first
        | assumption
        | apply ih
        | apply Nat_sub1_le
        | apply ite_snd_depth
        | apply ite_proc_depth
        | apply depth_foldl_le
        | intro hh
        | simp only [depth_generate_id, depth_add_node, depth_add_connection, depth_handle_max,
            depth_setdefault, depth_record_recursive, depth_track_attr, depth_track_init,
            depth_consolidate]
        | split
      all_goals
        ((try simp only [is_nesting_limit_exceeded, decide_eq_true_eq, depth_generate_id,
            depth_add_node, depth_add_connection, depth_setdefault, depth_track_attr,
            depth_track_init] at *)
         omega)
    | cPass st cur scope =>
      simp only [runStep]
      repeat'
        first
        | assumption
        | apply ih
        | apply Nat_sub1_le
        | apply ite_snd_depth
        | apply ite_proc_depth
        | apply depth_foldl_le
        | intro hh
        | simp only [depth_generate_id, depth_add_node, depth_add_connection, depth_handle_max,
            depth_setdefault, depth_record_recursive, depth_track_attr, depth_track_init,
            depth_consolidate]
        | split
      all_goals
        ((try simp only [is_nesting_limit_exceeded, decide_eq_true_eq, depth_generate_id,
            depth_add_node, depth_add_connection, depth_setdefault, depth_track_attr,
            depth_track_init] at *)
         omega)
    | cClassDef st cur scope =>
      simp only [runStep]
      repeat'
        first
        | assumption
        | apply ih
        | apply Nat_sub1_le
        | apply ite_snd_depth
        | apply ite_proc_depth
        | apply depth_foldl_le
        | intro hh
        | simp only [depth_generate_id, depth_add_node, depth_add_connection, depth_handle_max,
            depth_setdefault, depth_record_recursive, depth_track_attr, depth_track_init,
            depth_consolidate]
        | split
      all_goals
        ((try simp only [is_nesting_limit_exceeded, decide_eq_true_eq, depth_generate_id,
            depth_add_node, depth_add_connection, depth_setdefault, depth_track_attr,
            depth_track_init] at *)
         omega)
    | cFuncDef st cur scope =>
      simp only [runStep]
      repeat'
        first
        | assumption
        | apply ih
        | apply Nat_sub1_le
        | apply ite_snd_depth
        | apply ite_proc_depth
        | apply depth_foldl_le
        | intro hh
        | simp only [depth_generate_id, depth_add_node, depth_add_connection, depth_handle_max,
            depth_setdefault, depth_record_recursive, depth_track_attr, depth_track_init,
            depth_consolidate]
        | split
      all_goals
        ((try simp only [is_nesting_limit_exceeded, decide_eq_true_eq, depth_generate_id,
            depth_add_node, depth_add_connection, depth_setdefault, depth_track_attr,
            depth_track_init] at *)
         omega)
    | cExitFn st cur scope =>
      simp only [runStep]
      repeat'
        first
        | assumption
        | apply ih
        | apply Nat_sub1_le
        | apply ite_snd_depth
        | apply ite_proc_depth
        | apply depth_foldl_le
        | intro hh
        | simp only [depth_generate_id, depth_add_node, depth_add_connection, depth_handle_max,
            depth_setdefault, depth_record_recursive, depth_track_attr, depth_track_init,
            depth_consolidate]
        | split
      all_goals
        ((try simp only [is_nesting_limit_exceeded, decide_eq_true_eq, depth_generate_id,
            depth_add_node, depth_add_connection, depth_setdefault, depth_track_attr,
            depth_track_init] at *)
         omega)
    | cMethodCall st cur scope mname cname =>
      simp only [runStep]
      repeat'
        first
        | assumption
        | apply ih
        | apply Nat_sub1_le
        | apply ite_snd_depth
        | apply ite_proc_depth
        | apply depth_foldl_le
        | intro hh
        | simp only [depth_generate_id, depth_add_node, depth_add_connection, depth_handle_max,
            depth_setdefault, depth_record_recursive, depth_track_attr, depth_track_init,
            depth_consolidate]
        | split
      all_goals
        ((try simp only [is_nesting_limit_exceeded, decide_eq_true_eq, depth_generate_id,
            depth_add_node, depth_add_connection, depth_setdefault, depth_track_attr,
            depth_track_init] at *)
         omega)
    | cInstantiation st cur scope cname =>
      simp only [runStep]
      repeat'
        first
        | assumption
        | apply ih
        | apply Nat_sub1_le
        | apply ite_snd_depth
        | apply ite_proc_depth
        | apply depth_foldl_le
        | intro hh
        | simp only [depth_generate_id, depth_add_node, depth_add_connection, depth_handle_max,
            depth_setdefault, depth_record_recursive, depth_track_attr, depth_track_init,
            depth_consolidate]
        | split
      all_goals
        ((try simp only [is_nesting_limit_exceeded, decide_eq_true_eq, depth_generate_id,
            depth_add_node, depth_add_connection, depth_setdefault, depth_track_attr,
            depth_track_init] at *)
         omega)
    | cInstAssign st cur scope cname =>
      simp only [runStep]
      repeat'
        first
        | assumption
        | apply ih
        | apply Nat_sub1_le
        | apply ite_snd_depth
        | apply ite_proc_depth
        | apply depth_foldl_le
        | intro hh
        | simp only [depth_generate_id, depth_add_node, depth_add_connection, depth_handle_max,
            depth_setdefault, depth_record_recursive, depth_track_attr, depth_track_init,
            depth_consolidate]
        | split
      all_goals
        ((try simp only [is_nesting_limit_exceeded, decide_eq_true_eq, depth_generate_id,
            depth_add_node, depth_add_connection, depth_setdefault, depth_track_attr,
            depth_track_init] at *)
         omega)
    | cMethodCallAssign st cur scope mname =>
      simp only [runStep]
      repeat'
        first
        | assumption
        | apply ih
        | apply Nat_sub1_le
        | apply ite_snd_depth
        | apply ite_proc_depth
        | apply depth_foldl_le
        | intro hh
        | simp only [depth_generate_id, depth_add_node, depth_add_connection, depth_handle_max,
            depth_setdefault, depth_record_recursive, depth_track_attr, depth_track_init,
            depth_consolidate]
        | split
      all_goals
        ((try simp only [is_nesting_limit_exceeded, decide_eq_true_eq, depth_generate_id,
            depth_add_node, depth_add_connection, depth_setdefault, depth_track_attr,
            depth_track_init] at *)
         omega)
    | cCreateMS cname mname fd callId =>
      simp only [runStep]
      repeat'
        first
        | assumption
        | apply ih
        | apply Nat_sub1_le
        | apply ite_snd_depth
        | apply ite_proc_depth
        | apply depth_foldl_le
        | intro hh
        | simp only [depth_generate_id, depth_add_node, depth_add_connection, depth_handle_max,
            depth_setdefault, depth_record_recursive, depth_track_attr, depth_track_init,
            depth_consolidate]
        | split
      all_goals
        ((try simp only [is_nesting_limit_exceeded, decide_eq_true_eq, depth_generate_id,
            depth_add_node, depth_add_connection, depth_setdefault, depth_track_attr,
            depth_track_init] at *)
         omega)
    | cMethodBody fd methodId methodScope =>
      simp only [runStep]
      repeat'
        first
        | assumption
        | apply ih
        | apply Nat_sub1_le
        | apply ite_snd_depth
        | apply ite_proc_depth
        | apply depth_foldl_le
        | intro hh
        | simp only [depth_generate_id, depth_add_node, depth_add_connection, depth_handle_max,
            depth_setdefault, depth_record_recursive, depth_track_attr, depth_track_init,
            depth_consolidate]
        | split
      all_goals
        ((try simp only [is_nesting_limit_exceeded, decide_eq_true_eq, depth_generate_id,
            depth_add_node, depth_add_connection, depth_setdefault, depth_track_attr,
            depth_track_init] at *)
         omega)
    | cMainFlow stmts cur =>
      simp only [runStep]
      repeat'
        first
        | assumption
        | apply ih
        | apply Nat_sub1_le
        | apply ite_snd_depth
        | apply ite_proc_depth
        | apply depth_foldl_le
        | intro hh
        | simp only [depth_generate_id, depth_add_node, depth_add_connection, depth_handle_max,
            depth_setdefault, depth_record_recursive, depth_track_attr, depth_track_init,
            depth_consolidate]
        | split
      all_goals
        ((try simp only [is_nesting_limit_exceeded, decide_eq_true_eq, depth_generate_id,
            depth_add_node, depth_add_connection, depth_setdefault, depth_track_attr,
            depth_track_init] at *)
         omega)

theorem dinsert_length_le {α : Type} (d : List (String × α)) (k : String) (v : α) :
    (dinsert d k v).length ≤ d.length + 1 := by
  unfold dinsert; split
  · rw [List.length_map]; exact Nat.le_succ _
  · rw [List.length_append]; exact Nat.le_refl _

theorem dinsert_length_of_contains {α : Type} {d : List (String × α)} {k : String} (v : α)
    (h : dcontains d k = true) : (dinsert d k v).length = d.length := by
  unfold dinsert; rw [if_pos h, List.length_map]

theorem should_consolidate_imp_contains {p : Proc} {cur scope : String}
    (h : should_consolidate_with_previous p cur scope = true) : dcontains p.nodes cur = true := by
  unfold should_consolidate_with_previous at h
  split at h
  · exact absurd h (by simp)
  · split at h
    · exact absurd h (by simp)
    · rename_i hcond
      cases hq : dcontains p.nodes cur with
      | true => rfl
      | false => exact absurd (by simp [hq]) hcond

theorem nodes_generate_id (p : Proc) (x : String) :
    (generate_id p x).2.nodes = p.nodes := rfl

theorem nodes_add_connection (p : Proc) (a b l : String) (bi : Bool) :
    (add_connection p a b l bi).nodes = p.nodes := rfl

theorem nodes_handle_max (p : Proc) (cur : String) :
    (handle_max_nodes_exceeded p cur).nodes = p.nodes := by
  unfold handle_max_nodes_exceeded; (repeat' split) <;> rfl

theorem nodes_setdefault (p : Proc) (scope child : String) :
    (setdefault_add_child p scope child).nodes = p.nodes := rfl

theorem nodes_record_recursive (p : Proc) (f c : String) :
    (record_recursive_call p f c).nodes = p.nodes := rfl

theorem nodes_track_attr (p : Proc) (st : Stmt) (scope : String) :
    (track_attribute_assignment p st scope).nodes = p.nodes := by
  unfold track_attribute_assignment; (repeat' split) <;> rfl

theorem nodes_track_init (p : Proc) (cn : String) (args : List PyExpr) (scope : String) :
    (track_init_parameter_types p cn args scope).nodes = p.nodes := by
  unfold track_init_parameter_types; (repeat' split) <;> rfl

theorem nodes_len_add_node {p : Proc} (i t : String) (s : String × String) (sc : Option String)
    (h : p.nodes.length ≤ MAX_NODES) : (add_node p i t s sc).2.nodes.length ≤ MAX_NODES := by
  unfold add_node
  split
  · exact h
  · rename_i hlt
    exact le_trans (dinsert_length_le _ _ _) (Nat.succ_le_of_lt (Nat.lt_of_not_le hlt))

theorem nodes_len_consolidate {p : Proc} {cur scope : String} (st : Stmt)
    (hc : should_consolidate_with_previous p cur scope = true)
    (h : p.nodes.length ≤ MAX_NODES) :
    (consolidate_with_previous p st cur).nodes.length ≤ MAX_NODES :=
  le_trans (le_of_eq (dinsert_length_of_contains _ (should_consolidate_imp_contains hc))) h

theorem nodes_foldl_le {cname : String} {body : List Stmt} {q : Proc}
    (h : q.nodes.length ≤ MAX_NODES) :
    (body.foldl (fun p item =>
      match item with
      | .functionDef fd => { p with method_defs := dinsert p.method_defs (cname ++ "." ++ fd.name) fd }
      | _ => p) q).nodes.length ≤ MAX_NODES := by
  induction body generalizing q with
  | nil => exact h
  | cons it rest ih =>
    rw [List.foldl_cons]
    exact ih (by cases it <;> exact h)

theorem ite_snd_nodes {c : Prop} [Decidable c] {A B : HRes × Proc}
    (hA : c → A.2.nodes.length ≤ MAX_NODES)
    (hB : ¬c → B.2.nodes.length ≤ MAX_NODES) :
    (if c then A else B).2.nodes.length ≤ MAX_NODES := by
  by_cases hc : c
  · rw [if_pos hc]; exact hA hc
  · rw [if_neg hc]; exact hB hc

theorem ite_proc_nodes {c : Prop} [Decidable c] {A B : Proc}
    (hA : c → A.nodes.length ≤ MAX_NODES)
    (hB : ¬c → B.nodes.length ≤ MAX_NODES) :
    (if c then A else B).nodes.length ≤ MAX_NODES := by
  by_cases hc : c
  · rw [if_pos hc]; exact hA hc
  · rw [if_neg hc]; exact hB hc

set_option maxHeartbeats 16000000 in
theorem nodes_run : ∀ fuel c p, p.nodes.length ≤ MAX_NODES →
    (run fuel c p).2.nodes.length ≤ MAX_NODES := by
  intro fuel
  induction fuel with
  | zero => intro c p h; exact h
  | succ fuel ih =>
    intro c p h
    show (runStep (run fuel) c p).2.nodes.length ≤ MAX_NODES
    cases c with
    | pnl stmts cur scope lbl =>
      simp only [runStep]
      repeat'
        first
        | assumption
        | apply ih
        | apply nodes_len_add_node
        | apply nodes_len_consolidate
        | apply ite_snd_nodes
        | apply ite_proc_nodes
        | apply nodes_foldl_le
        | intro hh
        | simp only [nodes_generate_id, nodes_add_connection, nodes_handle_max,
            nodes_setdefault, nodes_record_recursive, nodes_track_attr, nodes_track_init]
        | split
      all_goals
        ((try simp only [nodes_generate_id, nodes_add_connection, nodes_handle_max,
            nodes_setdefault, nodes_record_recursive, nodes_track_attr, nodes_track_init] at *)
         omega)
    | pnlLoop stmts idx cur scope =>
      simp only [runStep]
      repeat'
        first
        | assumption
        | apply ih
        | apply nodes_len_add_node
        | apply nodes_len_consolidate
        | apply ite_snd_nodes
        | apply ite_proc_nodes
        | apply nodes_foldl_le
        | intro hh
        | simp only [nodes_generate_id, nodes_add_connection, nodes_handle_max,
            nodes_setdefault, nodes_record_recursive, nodes_track_attr, nodes_track_init]
        | split
      all_goals
        ((try simp only [nodes_generate_id, nodes_add_connection, nodes_handle_max,
            nodes_setdefault, nodes_record_recursive, nodes_track_attr, nodes_track_init] at *)
         omega)
    | hstmt st cur scope =>
      simp only [runStep]
      repeat'
        first
        | assumption
        | apply ih
        | apply nodes_len_add_node
        | apply nodes_len_consolidate
        | apply ite_snd_nodes
        | apply ite_proc_nodes
        | apply nodes_foldl_le
        | intro hh
        | simp only [nodes_generate_id, nodes_add_connection, nodes_handle_max,
            nodes_setdefault, nodes_record_recursive, nodes_track_attr, nodes_track_init]
        | split
      all_goals
        ((try simp only [nodes_generate_id, nodes_add_connection, nodes_handle_max,
            nodes_setdefault, nodes_record_recursive, nodes_track_attr, nodes_track_init] at *)
         omega)
    | cIf st cur scope =>
      simp only [runStep]
      repeat'
        first
        | assumption
        | apply ih
        | apply nodes_len_add_node
        | apply nodes_len_consolidate
        | apply ite_snd_nodes
        | apply ite_proc_nodes
        | apply nodes_foldl_le
        | intro hh
        | simp only [nodes_generate_id, nodes_add_connection, nodes_handle_max,
            nodes_setdefault, nodes_record_recursive, nodes_track_attr, nodes_track_init]
        | split
      all_goals
        ((try simp only [nodes_generate_id, nodes_add_connection, nodes_handle_max,
            nodes_setdefault, nodes_record_recursive, nodes_track_attr, nodes_track_init] at *)
         omega)
    | cExpr st cur scope =>
      cases st with
      | exprStmt ln v =>
        cases v with
        | call f args =>
          cases f with
          | attr recv aname =>
            cases recv <;>
            (simp only [runStep]
             repeat'
               first
               | assumption
               | apply ih
               | apply nodes_len_add_node
               | apply nodes_len_consolidate
               | apply ite_snd_nodes
               | apply ite_proc_nodes
               | apply nodes_foldl_le
               | intro hh
               | simp only [nodes_generate_id, nodes_add_connection, nodes_handle_max,
                   nodes_setdefault, nodes_record_recursive, nodes_track_attr, nodes_track_init]
               | split
             all_goals
               ((try simp only [nodes_generate_id, nodes_add_connection, nodes_handle_max,
                   nodes_setdefault, nodes_record_recursive, nodes_track_attr, nodes_track_init] at *)
                omega))
          | name fn =>
            simp only [runStep]
            repeat'
              first
              | assumption
              | apply ih
              | apply nodes_len_add_node
              | apply nodes_len_consolidate
              | apply ite_snd_nodes
              | apply ite_proc_nodes
              | apply nodes_foldl_le
              | intro hh
              | simp only [nodes_generate_id, nodes_add_connection, nodes_handle_max,
                  nodes_setdefault, nodes_record_recursive, nodes_track_attr, nodes_track_init]
              | split
            all_goals
              ((try simp only [nodes_generate_id, nodes_add_connection, nodes_handle_max,
                  nodes_setdefault, nodes_record_recursive, nodes_track_attr, nodes_track_init] at *)
               omega)
          | strLit sl =>
            simp only [runStep]
            repeat'
              first
              | assumption
              | apply ih
              | apply nodes_len_add_node
              | apply nodes_len_consolidate
              | apply ite_snd_nodes
              | apply ite_proc_nodes
              | apply nodes_foldl_le
              | intro hh
              | simp only [nodes_generate_id, nodes_add_connection, nodes_handle_max,
                  nodes_setdefault, nodes_record_recursive, nodes_track_attr, nodes_track_init]
              | split
            all_goals
              ((try simp only [nodes_generate_id, nodes_add_connection, nodes_handle_max,
                  nodes_setdefault, nodes_record_recursive, nodes_track_attr, nodes_track_init] at *)
               omega)
          | call f2 a2 =>
            simp only [runStep]
            repeat'
              first
              | assumption
              | apply ih
              | apply nodes_len_add_node
              | apply nodes_len_consolidate
              | apply ite_snd_nodes
              | apply ite_proc_nodes
              | apply nodes_foldl_le
              | intro hh
              | simp only [nodes_generate_id, nodes_add_connection, nodes_handle_max,
                  nodes_setdefault, nodes_record_recursive, nodes_track_attr, nodes_track_init]
              | split
            all_goals
              ((try simp only [nodes_generate_id, nodes_add_connection, nodes_handle_max,
                  nodes_setdefault, nodes_record_recursive, nodes_track_attr, nodes_track_init] at *)
               omega)
          | other o =>
            simp only [runStep]
            repeat'
              first
              | assumption
              | apply ih
              | apply nodes_len_add_node
              | apply nodes_len_consolidate
              | apply ite_snd_nodes
              | apply ite_proc_nodes
              | apply nodes_foldl_le
              | intro hh
              | simp only [nodes_generate_id, nodes_add_connection, nodes_handle_max,
                  nodes_setdefault, nodes_record_recursive, nodes_track_attr, nodes_track_init]
              | split
            all_goals
              ((try simp only [nodes_generate_id, nodes_add_connection, nodes_handle_max,
                  nodes_setdefault, nodes_record_recursive, nodes_track_attr, nodes_track_init] at *)
               omega)
        | name x =>
          simp only [runStep]
          repeat'
            first
            | assumption
            | apply ih
            | apply nodes_len_add_node
            | apply nodes_len_consolidate
            | apply ite_snd_nodes
            | apply ite_proc_nodes
            | apply nodes_foldl_le
            | intro hh
            | simp only [nodes_generate_id, nodes_add_connection, nodes_handle_max,
                nodes_setdefault, nodes_record_recursive, nodes_track_attr, nodes_track_init]
            | split
          all_goals
            ((try simp only [nodes_generate_id, nodes_add_connection, nodes_handle_max,
                nodes_setdefault, nodes_record_recursive, nodes_track_attr, nodes_track_init] at *)
             omega)
        | strLit sl =>
          simp only [runStep]
          repeat'
            first
            | assumption
            | apply ih
            | apply nodes_len_add_node
            | apply nodes_len_consolidate
            | apply ite_snd_nodes
            | apply ite_proc_nodes
            | apply nodes_foldl_le
            | intro hh
            | simp only [nodes_generate_id, nodes_add_connection, nodes_handle_max,
                nodes_setdefault, nodes_record_recursive, nodes_track_attr, nodes_track_init]
            | split
          all_goals
            ((try simp only [nodes_generate_id, nodes_add_connection, nodes_handle_max,
                nodes_setdefault, nodes_record_recursive, nodes_track_attr, nodes_track_init] at *)
             omega)
        | attr a b =>
          simp only [runStep]
          repeat'
            first
            | assumption
            | apply ih
            | apply nodes_len_add_node
            | apply nodes_len_consolidate
            | apply ite_snd_nodes
            | apply ite_proc_nodes
            | apply nodes_foldl_le
            | intro hh
            | simp only [nodes_generate_id, nodes_add_connection, nodes_handle_max,
                nodes_setdefault, nodes_record_recursive, nodes_track_attr, nodes_track_init]
            | split
          all_goals
            ((try simp only [nodes_generate_id, nodes_add_connection, nodes_handle_max,
                nodes_setdefault, nodes_record_recursive, nodes_track_attr, nodes_track_init] at *)
             omega)
        | other o =>
          simp only [runStep]
          repeat'
            first
            | assumption
            | apply ih
            | apply nodes_len_add_node
            | apply nodes_len_consolidate
            | apply ite_snd_nodes
            | apply ite_proc_nodes
            | apply nodes_foldl_le
            | intro hh
            | simp only [nodes_generate_id, nodes_add_connection, nodes_handle_max,
                nodes_setdefault, nodes_record_recursive, nodes_track_attr, nodes_track_init]
            | split
          all_goals
            ((try simp only [nodes_generate_id, nodes_add_connection, nodes_handle_max,
                nodes_setdefault, nodes_record_recursive, nodes_track_attr, nodes_track_init] at *)
             omega)
      | ifStmt a b c d =>
        simp only [runStep]
        repeat'
          first
          | assumption
          | apply ih
          | apply nodes_len_add_node
          | apply nodes_len_consolidate
          | apply ite_snd_nodes
          | apply ite_proc_nodes
          | apply nodes_foldl_le
          | intro hh
          | simp only [nodes_generate_id, nodes_add_connection, nodes_handle_max,
              nodes_setdefault, nodes_record_recursive, nodes_track_attr, nodes_track_init]
          | split
        all_goals
          ((try simp only [nodes_generate_id, nodes_add_connection, nodes_handle_max,
              nodes_setdefault, nodes_record_recursive, nodes_track_attr, nodes_track_init] at *)
           omega)
      | assign a b c =>
        simp only [runStep]
        repeat'
          first
          | assumption
          | apply ih
          | apply nodes_len_add_node
          | apply nodes_len_consolidate
          | apply ite_snd_nodes
          | apply ite_proc_nodes
          | apply nodes_foldl_le
          | intro hh
          | simp only [nodes_generate_id, nodes_add_connection, nodes_handle_max,
              nodes_setdefault, nodes_record_recursive, nodes_track_attr, nodes_track_init]
          | split
        all_goals
          ((try simp only [nodes_generate_id, nodes_add_connection, nodes_handle_max,
              nodes_setdefault, nodes_record_recursive, nodes_track_attr, nodes_track_init] at *)
           omega)
      | augAssign a b c d =>
        simp only [runStep]
        repeat'
          first
          | assumption
          | apply ih
          | apply nodes_len_add_node
          | apply nodes_len_consolidate
          | apply ite_snd_nodes
          | apply ite_proc_nodes
          | apply nodes_foldl_le
          | intro hh
          | simp only [nodes_generate_id, nodes_add_connection, nodes_handle_max,
              nodes_setdefault, nodes_record_recursive, nodes_track_attr, nodes_track_init]
          | split
        all_goals
          ((try simp only [nodes_generate_id, nodes_add_connection, nodes_handle_max,
              nodes_setdefault, nodes_record_recursive, nodes_track_attr, nodes_track_init] at *)
           omega)
      | passStmt a =>
        simp only [runStep]
        repeat'
          first
          | assumption
          | apply ih
          | apply nodes_len_add_node
          | apply nodes_len_consolidate
          | apply ite_snd_nodes
          | apply ite_proc_nodes
          | apply nodes_foldl_le
          | intro hh
          | simp only [nodes_generate_id, nodes_add_connection, nodes_handle_max,
              nodes_setdefault, nodes_record_recursive, nodes_track_attr, nodes_track_init]
          | split
        all_goals
          ((try simp only [nodes_generate_id, nodes_add_connection, nodes_handle_max,
              nodes_setdefault, nodes_record_recursive, nodes_track_attr, nodes_track_init] at *)
           omega)
      | functionDef a =>
        simp only [runStep]
        repeat'
          first
          | assumption
          | apply ih
          | apply nodes_len_add_node
          | apply nodes_len_consolidate
          | apply ite_snd_nodes
          | apply ite_proc_nodes
          | apply nodes_foldl_le
          | intro hh
          | simp only [nodes_generate_id, nodes_add_connection, nodes_handle_max,
              nodes_setdefault, nodes_record_recursive, nodes_track_attr, nodes_track_init]
          | split
        all_goals
          ((try simp only [nodes_generate_id, nodes_add_connection, nodes_handle_max,
              nodes_setdefault, nodes_record_recursive, nodes_track_attr, nodes_track_init] at *)
           omega)
      | classDef a b c =>
        simp only [runStep]
        repeat'
          first
          | assumption
          | apply ih
          | apply nodes_len_add_node
          | apply nodes_len_consolidate
          | apply ite_snd_nodes
          | apply ite_proc_nodes
          | apply nodes_foldl_le
          | intro hh
          | simp only [nodes_generate_id, nodes_add_connection, nodes_handle_max,
              nodes_setdefault, nodes_record_recursive, nodes_track_attr, nodes_track_init]
          | split
        all_goals
          ((try simp only [nodes_generate_id, nodes_add_connection, nodes_handle_max,
              nodes_setdefault, nodes_record_recursive, nodes_track_attr, nodes_track_init] at *)
           omega)
    | cPrint st cur scope =>
      simp only [runStep]
      repeat'
        first
        | assumption
        | apply ih
        | apply nodes_len_add_node
        | apply nodes_len_consolidate
        | apply ite_snd_nodes
        | apply ite_proc_nodes
        | apply nodes_foldl_le
        | intro hh
        | simp only [nodes_generate_id, nodes_add_connection, nodes_handle_max,
            nodes_setdefault, nodes_record_recursive, nodes_track_attr, nodes_track_init]
        | split
      all_goals
        ((try simp only [nodes_generate_id, nodes_add_connection, nodes_handle_max,
            nodes_setdefault, nodes_record_recursive, nodes_track_attr, nodes_track_init] at *)
         omega)
    | cPrintCalls st cur scope =>
      simp only [runStep]
      repeat'
        first
        | assumption
        | apply ih
        | apply nodes_len_add_node
        | apply nodes_len_consolidate
        | apply ite_snd_nodes
        | apply ite_proc_nodes
        | apply nodes_foldl_le
        | intro hh
        | simp only [nodes_generate_id, nodes_add_connection, nodes_handle_max,
            nodes_setdefault, nodes_record_recursive, nodes_track_attr, nodes_track_init]
        | split
      all_goals
        ((try simp only [nodes_generate_id, nodes_add_connection, nodes_handle_max,
            nodes_setdefault, nodes_record_recursive, nodes_track_attr, nodes_track_init] at *)
         omega)
    | cPrintLoop calls counter cur scope =>
      simp only [runStep]
      repeat'
        first
        | assumption
        | apply ih
        | apply nodes_len_add_node
        | apply nodes_len_consolidate
        | apply ite_snd_nodes
        | apply ite_proc_nodes
        | apply nodes_foldl_le
        | intro hh
        | simp only [nodes_generate_id, nodes_add_connection, nodes_handle_max,
            nodes_setdefault, nodes_record_recursive, nodes_track_attr, nodes_track_init]
        | split
      all_goals
        ((try simp only [nodes_generate_id, nodes_add_connection, nodes_handle_max,
            nodes_setdefault, nodes_record_recursive, nodes_track_attr, nodes_track_init] at *)
         omega)
    | cAssign st cur scope =>
      simp only [runStep]
      repeat'
        first
        | assumption
        | apply ih
        | apply nodes_len_add_node
        | apply nodes_len_consolidate
        | apply ite_snd_nodes
        | apply ite_proc_nodes
        | apply nodes_foldl_le
        | intro hh
        | simp only [nodes_generate_id, nodes_add_connection, nodes_handle_max,
            nodes_setdefault, nodes_record_recursive, nodes_track_attr, nodes_track_init]
        | split
      all_goals
        ((try simp only [nodes_generate_id, nodes_add_connection, nodes_handle_max,
            nodes_setdefault, nodes_record_recursive, nodes_track_attr, nodes_track_init] at *)
         omega)
    | cAug st cur scope =>
      simp only [runStep]
      repeat'
        first
        | assumption
        | apply ih
        | apply nodes_len_add_node
        | apply nodes_len_consolidate
        | apply ite_snd_nodes
        | apply ite_proc_nodes
        | apply nodes_foldl_le
        | intro hh
        | simp only [nodes_generate_id, nodes_add_connection, nodes_handle_max,
            nodes_setdefault, nodes_record_recursive, nodes_track_attr, nodes_track_init]
        | split
      all_goals
        ((try simp only [nodes_generate_id, nodes_add_connection, nodes_handle_max,
            nodes_setdefault, nodes_record_recursive, nodes_track_attr, nodes_track_init] at *)
         omega)
    | cPass st cur scope =>
      simp only [runStep]
      repeat'
        first
        | assumption
        | apply ih
        | apply nodes_len_add_node
        | apply nodes_len_consolidate
        | apply ite_snd_nodes
        | apply ite_proc_nodes
        | apply nodes_foldl_le
        | intro hh
        | simp only [nodes_generate_id, nodes_add_connection, nodes_handle_max,
            nodes_setdefault, nodes_record_recursive, nodes_track_attr, nodes_track_init]
        | split
      all_goals
        ((try simp only [nodes_generate_id, nodes_add_connection, nodes_handle_max,
            nodes_setdefault, nodes_record_recursive, nodes_track_attr, nodes_track_init] at *)
         omega)
    | cClassDef st cur scope =>
      simp only [runStep]
      repeat'
        first
        | assumption
        | apply ih
        | apply nodes_len_add_node
        | apply nodes_len_consolidate
        | apply ite_snd_nodes
        | apply ite_proc_nodes
        | apply nodes_foldl_le
        | intro hh
        | simp only [nodes_generate_id, nodes_add_connection, nodes_handle_max,
            nodes_setdefault, nodes_record_recursive, nodes_track_attr, nodes_track_init]
        | split
      all_goals
        ((try simp only [nodes_generate_id, nodes_add_connection, nodes_handle_max,
            nodes_setdefault, nodes_record_recursive, nodes_track_attr, nodes_track_init] at *)
         omega)
    | cFuncDef st cur scope =>
      simp only [runStep]
      repeat'
        first
        | assumption
        | apply ih
        | apply nodes_len_add_node
        | apply nodes_len_consolidate
        | apply ite_snd_nodes
        | apply ite_proc_nodes
        | apply nodes_foldl_le
        | intro hh
        | simp only [nodes_generate_id, nodes_add_connection, nodes_handle_max,
            nodes_setdefault, nodes_record_recursive, nodes_track_attr, nodes_track_init]
        | split
      all_goals
        ((try simp only [nodes_generate_id, nodes_add_connection, nodes_handle_max,
            nodes_setdefault, nodes_record_recursive, nodes_track_attr, nodes_track_init] at *)
         omega)
    | cExitFn st cur scope =>
      simp only [runStep]
      repeat'
        first
        | assumption
        | apply ih
        | apply nodes_len_add_node
        | apply nodes_len_consolidate
        | apply ite_snd_nodes
        | apply ite_proc_nodes
        | apply nodes_foldl_le
        | intro hh
        | simp only [nodes_generate_id, nodes_add_connection, nodes_handle_max,
            nodes_setdefault, nodes_record_recursive, nodes_track_attr, nodes_track_init]
        | split
      all_goals
        ((try simp only [nodes_generate_id, nodes_add_connection, nodes_handle_max,
            nodes_setdefault, nodes_record_recursive, nodes_track_attr, nodes_track_init] at *)
         omega)
    | cMethodCall st cur scope mname cname =>
      simp only [runStep]
      repeat'
        first
        | assumption
        | apply ih
        | apply nodes_len_add_node
        | apply nodes_len_consolidate
        | apply ite_snd_nodes
        | apply ite_proc_nodes
        | apply nodes_foldl_le
        | intro hh
        | simp only [nodes_generate_id, nodes_add_connection, nodes_handle_max,
            nodes_setdefault, nodes_record_recursive, nodes_track_attr, nodes_track_init]
        | split
      all_goals
        ((try simp only [nodes_generate_id, nodes_add_connection, nodes_handle_max,
            nodes_setdefault, nodes_record_recursive, nodes_track_attr, nodes_track_init] at *)
         omega)
    | cInstantiation st cur scope cname =>
      simp only [runStep]
      repeat'
        first
        | assumption
        | apply ih
        | apply nodes_len_add_node
        | apply nodes_len_consolidate
        | apply ite_snd_nodes
        | apply ite_proc_nodes
        | apply nodes_foldl_le
        | intro hh
        | simp only [nodes_generate_id, nodes_add_connection, nodes_handle_max,
            nodes_setdefault, nodes_record_recursive, nodes_track_attr, nodes_track_init]
        | split
      all_goals
        ((try simp only [nodes_generate_id, nodes_add_connection, nodes_handle_max,
            nodes_setdefault, nodes_record_recursive, nodes_track_attr, nodes_track_init] at *)
         omega)
    | cInstAssign st cur scope cname =>
      simp only [runStep]
      repeat'
        first
        | assumption
        | apply ih
        | apply nodes_len_add_node
        | apply nodes_len_consolidate
        | apply ite_snd_nodes
        | apply ite_proc_nodes
        | apply nodes_foldl_le
        | intro hh
        | simp only [nodes_generate_id, nodes_add_connection, nodes_handle_max,
            nodes_setdefault, nodes_record_recursive, nodes_track_attr, nodes_track_init]
        | split
      all_goals
        ((try simp only [nodes_generate_id, nodes_add_connection, nodes_handle_max,
            nodes_setdefault, nodes_record_recursive, nodes_track_attr, nodes_track_init] at *)
         omega)
    | cMethodCallAssign st cur scope mname =>
      simp only [runStep]
      repeat'
        first
        | assumption
        | apply ih
        | apply nodes_len_add_node
        | apply nodes_len_consolidate
        | apply ite_snd_nodes
        | apply ite_proc_nodes
        | apply nodes_foldl_le
        | intro hh
        | simp only [nodes_generate_id, nodes_add_connection, nodes_handle_max,
            nodes_setdefault, nodes_record_recursive, nodes_track_attr, nodes_track_init]
        | split
      all_goals
        ((try simp only [nodes_generate_id, nodes_add_connection, nodes_handle_max,
            nodes_setdefault, nodes_record_recursive, nodes_track_attr, nodes_track_init] at *)
         omega)
    | cCreateMS cname mname fd callId =>
      simp only [runStep]
      repeat'
        first
        | assumption
        | apply ih
        | apply nodes_len_add_node
        | apply nodes_len_consolidate
        | apply ite_snd_nodes
        | apply ite_proc_nodes
        | apply nodes_foldl_le
        | intro hh
        | simp only [nodes_generate_id, nodes_add_connection, nodes_handle_max,
            nodes_setdefault, nodes_record_recursive, nodes_track_attr, nodes_track_init]
        | split
      all_goals
        ((try simp only [nodes_generate_id, nodes_add_connection, nodes_handle_max,
            nodes_setdefault, nodes_record_recursive, nodes_track_attr, nodes_track_init] at *)
         omega)
    | cMethodBody fd methodId methodScope =>
      simp only [runStep]
      repeat'
        first
        | assumption
        | apply ih
        | apply nodes_len_add_node
        | apply nodes_len_consolidate
        | apply ite_snd_nodes
        | apply ite_proc_nodes
        | apply nodes_foldl_le
        | intro hh
        | simp only [nodes_generate_id, nodes_add_connection, nodes_handle_max,
            nodes_setdefault, nodes_record_recursive, nodes_track_attr, nodes_track_init]
        | split
      all_goals
        ((try simp only [nodes_generate_id, nodes_add_connection, nodes_handle_max,
            nodes_setdefault, nodes_record_recursive, nodes_track_attr, nodes_track_init] at *)
         omega)
    | cMainFlow stmts cur =>
      simp only [runStep]
      repeat'
        first
        | assumption
        | apply ih
        | apply nodes_len_add_node
        | apply nodes_len_consolidate
        | apply ite_snd_nodes
        | apply ite_proc_nodes
        | apply nodes_foldl_le
        | intro hh
        | simp only [nodes_generate_id, nodes_add_connection, nodes_handle_max,
            nodes_setdefault, nodes_record_recursive, nodes_track_attr, nodes_track_init]
        | split
      all_goals
        ((try simp only [nodes_generate_id, nodes_add_connection, nodes_handle_max,
            nodes_setdefault, nodes_record_recursive, nodes_track_attr, nodes_track_init] at *)
         omega)

theorem nodes_reg_foldl_le {prog : List Stmt} {q : Proc}
    (h : q.nodes.length ≤ MAX_NODES) :
    (prog.foldl (fun p st =>
      match st with
      | .functionDef fd => { p with function_defs := dinsert p.function_defs fd.name fd }
      | .classDef _ cname body =>
        let methods := body.foldl (fun m item =>
          match item with
          | .functionDef fd => dinsert m fd.name fd
          | _ => m) []
        { p with class_defs := dinsert p.class_defs cname { body := body, methods := methods } }
      | _ => p) q).nodes.length ≤ MAX_NODES := by
  induction prog generalizing q with
  | nil => exact h
  | cons st rest ih =>
    rw [List.foldl_cons]
    exact ih (by cases st <;> exact h)

theorem depth_reg_foldl_le {prog : List Stmt} {q : Proc}
    (h : q.current_nesting_depth ≤ MAX_NESTING_DEPTH) :
    (prog.foldl (fun p st =>
      match st with
      | .functionDef fd => { p with function_defs := dinsert p.function_defs fd.name fd }
      | .classDef _ cname body =>
        let methods := body.foldl (fun m item =>
          match item with
          | .functionDef fd => dinsert m fd.name fd
          | _ => m) []
        { p with class_defs := dinsert p.class_defs cname { body := body, methods := methods } }
      | _ => p) q).current_nesting_depth ≤ MAX_NESTING_DEPTH := by
  induction prog generalizing q with
  | nil => exact h
  | cons st rest ih =>
    rw [List.foldl_cons]
    exact ih (by cases st <;> exact h)

theorem nodes_process_code (fuel : Nat) (prog : List Stmt) (p : Proc)
    (h : p.nodes.length ≤ MAX_NODES) :
    (process_code fuel prog p).nodes.length ≤ MAX_NODES := by
  unfold process_code
  repeat'
    first
    | assumption
    | apply nodes_run
    | apply nodes_len_add_node
    | apply nodes_reg_foldl_le
    | apply ite_proc_nodes
    | intro hh
    | simp only [nodes_generate_id, nodes_add_connection]
    | split

theorem depth_process_code (fuel : Nat) (prog : List Stmt) (p : Proc)
    (h : p.current_nesting_depth ≤ MAX_NESTING_DEPTH) :
    (process_code fuel prog p).current_nesting_depth ≤ MAX_NESTING_DEPTH := by
  unfold process_code
  repeat'
    first
    | assumption
    | apply depth_run
    | apply depth_reg_foldl_le
    | apply ite_proc_depth
    | intro hh
    | simp only [depth_generate_id, depth_add_node, depth_add_connection]
    | split

/-- The walker's resource invariant: the node store never exceeds
MAX_NODES entries and the call-splice nesting counter never exceeds
MAX_NESTING_DEPTH. -/
def ProcInv (p : Proc) : Prop :=
  p.nodes.length ≤ MAX_NODES ∧ p.current_nesting_depth ≤ MAX_NESTING_DEPTH

/-- The build respects its resource bounds.  (1) Every walker step
preserves the invariant: at most MAX_NODES stored nodes and a nesting-depth
counter at most MAX_NESTING_DEPTH; (2) process_code preserves it end to end;
(3) node creation is refused once the store holds MAX_NODES entries; (4) the
dangling edge is then redirected to the end node with the explanatory
"Max node limit 100 exceeded" label; (5) once the depth limit is reached, a
placeholder call node is emitted instead of splicing the callee body.
(These are the bound halves only: nothing here speaks about termination of
the source walk — the fuel-truncated interpreter is total regardless, and no
fuel-adequacy result is proven in this development.  Function-body splicing
is capped by the depth guard, while method-body splicing is capped by the
method_subgraphs cache, cf. `c5_method_subgraph_cached`.) -/
theorem walker_resource_bounds :
    (∀ fuel c p, ProcInv p → ProcInv (run fuel c p).2) ∧
    (∀ fuel prog p, ProcInv p → ProcInv (process_code fuel prog p)) ∧
    (∀ (p : Proc) i t s sc, MAX_NODES ≤ p.nodes.length → add_node p i t s sc = (false, p)) ∧
    (∀ (p : Proc) cur e, p.end_id = some e → (cur == "") = false → (e == "") = false →
      handle_max_nodes_exceeded p cur =
        add_connection p cur e ("Max node limit " ++ toString MAX_NODES ++ " exceeded") false) ∧
    (∀ fuel (p : Proc) (ln : Nat) fn (args : List PyExpr) cur scope,
      EXIT_FUNCTIONS.contains fn = false →
      fn ≠ "print" →
      dcontains p.class_defs fn = false →
      p.show_functions = true →
      dcontains p.function_defs fn = true →
      is_nesting_limit_exceeded p = true →
      run (fuel + 1) (.cExpr (.exprStmt ln (.call (.name fn) args)) cur scope) p =
        (let g := generate_id p ("nesting_limit_" ++ fn)
         let call_id := g.1
         let text := "Call: " ++ get_node_text (.exprStmt ln (.call (.name fn) args)) ++ " (Max nesting depth " ++ toString MAX_NESTING_DEPTH ++ " exceeded)"
         let text := maybe_highlight p (.exprStmt ln (.call (.name fn) args)) text
         let p1 := (add_node g.2 call_id text SHAPE_function_call (some scope)).2
         (.next call_id, add_connection p1 cur call_id "" false))) := by
  refine ⟨?_, ?_, ?_, ?_, ?_⟩
  · intro fuel c p h
    exact ⟨nodes_run fuel c p h.1, depth_run fuel c p h.2⟩
  · intro fuel prog p h
    exact ⟨nodes_process_code fuel prog p h.1, depth_process_code fuel prog p h.2⟩
  · intro p i t s sc hge
    unfold add_node
    rw [if_pos hge]
  · intro p cur e he hc1 hc2
    unfold handle_max_nodes_exceeded
    rw [he]
    show (if (cur == "" || e == "") = true then p
         else add_connection p cur e ("Max node limit " ++ toString MAX_NODES ++ " exceeded") false) = _
    rw [if_neg (by simp [hc1, hc2])]
  · intro fuel p ln fn args cur scope h1 h2 h3 h4 h5 h6
    have h2x : ((some fn : Option String) == some "print") = false := by simpa using h2
    simp only [run, runStep, Option.getD_some, h1, h2x, h3, h4, h5, h6]
    rfl

def wbFullStore : Proc := { procInit with nodes := List.replicate MAX_NODES ("n", "n[x]") }

def wbDeepState : Proc := { procInit with
  current_nesting_depth := MAX_NESTING_DEPTH
  function_defs := [("f", exampleRecFn)] }

theorem walker_resource_bounds_check :
    ProcInv (run 3 (.cMainFlow exampleIf "start1") procInit).2 ∧
    ProcInv (process_code 200 exampleIf procInit) ∧
    add_node wbFullStore "x1" "t" SHAPE_default none = (false, wbFullStore) ∧
    handle_max_nodes_exceeded { wbFullStore with end_id := some "end2" } "cur1" =
      add_connection { wbFullStore with end_id := some "end2" } "cur1" "end2"
        ("Max node limit " ++ toString MAX_NODES ++ " exceeded") false ∧
    run (0 + 1) (.cExpr (.exprStmt 4 (.call (.name "f") [])) "start1" "main") wbDeepState =
      (let g := generate_id wbDeepState ("nesting_limit_" ++ "f")
       let call_id := g.1
       let text := "Call: " ++ get_node_text (.exprStmt 4 (.call (.name "f") [])) ++ " (Max nesting depth " ++ toString MAX_NESTING_DEPTH ++ " exceeded)"
       let text := maybe_highlight wbDeepState (.exprStmt 4 (.call (.name "f") [])) text
       let p1 := (add_node g.2 call_id text SHAPE_function_call (some "main")).2
       (.next call_id, add_connection p1 "start1" call_id "" false)) :=
  ⟨walker_resource_bounds.1 3 (.cMainFlow exampleIf "start1") procInit ⟨by decide, by decide⟩,
   walker_resource_bounds.2.1 200 exampleIf procInit ⟨by decide, by decide⟩,
   walker_resource_bounds.2.2.1 wbFullStore "x1" "t" SHAPE_default none (by decide),
   walker_resource_bounds.2.2.2.1 _ "cur1" "end2" rfl (by decide) (by decide),
   walker_resource_bounds.2.2.2.2 0 wbDeepState 4 "f" [] "start1" "main" (by decide) (by decide)
     (by decide) (by decide) (by decide) (by decide)⟩
